import Mathlib

/-!
Verification development for the GapLens resilient agent-orchestration engine.

This file shallowly embeds the parts of the repository that the checked
properties are about:

  * `agents/perception.py`  — `clean_json_response`, `create_fallback_perception`,
    `parse_json_with_fallbacks`, `perceive_input`
  * `agents/base_agent.py`  — `BaseAgent._get_fallback_json`, `invoke_llm`,
    `_log_to_memory`, `_log_error_to_memory`
  * `agents/schemas.py`     — `validate_perception_output` (the Pydantic
    `PerceptionOutput` model)
  * `agents/analysis.py`    — `analyze_facts`
  * `agents/decision.py`    — `DecisionAgent.process`, `_extract_json_from_response`,
    `_create_fallback_decision`
  * `agents/orchestrator.py`— `OrchestratorAgent.process`
  * `core/memory_system.py` — `ReasoningPattern`, `MemoryEntry`, `SessionMemory`,
    `LongTermMemory.save_session` / `load_session`
  * `core/langgraph_workflow.py` — `perception_node`, `orchestrator_node`,
    `route_to_next_step` and the compiled graph's edge structure
  * `core/workflow.py`      — the arity structure of `MultiAgentWorkflow.__init__`

Python values that flow through `json` are modelled by the inductive `Json`;
Python strings are Lean `String`s; Python floats that occur in the claims
(confidence values 0.8, 0.1, ...) are modelled as rationals, which preserves
all (in)equalities between those literals.  Exceptions are modelled with
`Except`; a Python function that cannot raise is a total Lean function.
Wall-clock timestamps (`datetime.now()`) are passed in explicitly as opaque
strings.  Regular-expression operations from the source are implemented as
the character-level transformations they denote, with the original pattern
quoted in a comment at each definition.
-/

/-- Model of a Python value produced by `json.loads` / consumed by `json.dump`:
null, booleans, numbers (ints and floats merged into `ℚ`, which preserves the
equalities the claims test), strings, lists, and insertion-ordered dicts. -/
inductive Json where
  | null : Json
  | bool : Bool → Json
  | num : ℚ → Json
  | str : String → Json
  | arr : List Json → Json
  | obj : List (String × Json) → Json

/-- Left brace character, kept out of string literals. -/
def lbrace : Char := Char.ofNat 123

/-- Right brace character, kept out of string literals. -/
def rbrace : Char := Char.ofNat 125

/-- Python whitespace for `str.strip()` / `str.isspace()` (the ASCII part:
space, tab, newline, carriage return, vertical tab, form feed). -/
def isPyWS (c : Char) : Bool :=
  [' ', '\t', '\n', '\r', Char.ofNat 11, Char.ofNat 12].contains c

/-- Model of Python `str.strip()` with no arguments. -/
def pyStrip (s : String) : String :=
  ⟨((s.toList.dropWhile isPyWS).reverse.dropWhile isPyWS).reverse⟩

/-- Model of Python `str.isspace()`: non-empty and all whitespace. -/
def pyIsSpace (s : String) : Bool :=
  !s.toList.isEmpty && s.toList.all isPyWS

/-- Model of Python `str.strip(chars)` for an explicit character set. -/
def pyStripCharset (s : String) (chars : List Char) : String :=
  ⟨((s.toList.dropWhile (chars.contains ·)).reverse.dropWhile (chars.contains ·)).reverse⟩

/-- Tests whether `pat` occurs at the head of `s` (character lists). -/
def listStarts : List Char → List Char → Bool
  | [], _ => true
  | _ :: _, [] => false
  | p :: ps, c :: cs => p == c && listStarts ps cs

/-- Model of Python `needle in haystack` on strings (substring containment). -/
def strContains (haystack needle : String) : Bool :=
  haystack.toList.tails.any (fun t => listStarts needle.toList t)

/-- Replaces, left to right and non-overlapping, every occurrence of `pat`
in the character list; fuel-indexed so the recursion is structural. -/
def replaceFrom : Nat → List Char → List Char → List Char → List Char
  | 0, s, _, _ => s
  | _ + 1, [], _, _ => []
  | fuel + 1, c :: cs, pat, rep =>
    if listStarts pat (c :: cs) then
      rep ++ replaceFrom fuel (List.drop pat.length (c :: cs)) pat rep
    else
      c :: replaceFrom fuel cs pat rep

/-- Model of Python `str.replace(pat, rep)` (all occurrences; for the empty
pattern Python interleaves `rep` everywhere, a case no call site exercises,
so it is mapped to the identity). -/
def pyReplace (s pat rep : String) : String :=
  if pat = "" then s
  else ⟨replaceFrom (s.toList.length + 1) s.toList pat.toList rep.toList⟩

/-- JSON grammar whitespace accepted by `json.loads` between tokens. -/
def isJsonWS (c : Char) : Bool :=
  c == ' ' || c == '\t' || c == '\n' || c == '\r'

/-- Drops JSON whitespace from the head of the input. -/
def skipWs (s : List Char) : List Char := s.dropWhile isJsonWS

/-- Hex digit value, for `\uXXXX` escapes. -/
def hexVal (c : Char) : Option Nat :=
  let n := c.toNat
  if 48 ≤ n ∧ n ≤ 57 then some (n - 48)
  else if 97 ≤ n ∧ n ≤ 102 then some (n - 87)
  else if 65 ≤ n ∧ n ≤ 70 then some (n - 55)
  else none

/-- Parses the body of a JSON string literal (after the opening quote),
returning the decoded characters and the remaining input.  Structural on the
input list.  Surrogate pairs in `\uXXXX` escapes are decoded code unit by
code unit, which agrees with Python on the inputs any theorem below uses. -/
def parseStrBody : List Char → Option (List Char × List Char)
  | [] => none
  | c :: cs =>
    if c == '"' then some ([], cs)
    else if c == '\\' then
      match cs with
      | [] => none
      | e :: rest =>
        if e == 'u' then
          match rest with
          | h1 :: h2 :: h3 :: h4 :: rest2 => do
            let v1 ← hexVal h1
            let v2 ← hexVal h2
            let v3 ← hexVal h3
            let v4 ← hexVal h4
            let (tail, rem) ← parseStrBody rest2
            let code := ((v1 * 16 + v2) * 16 + v3) * 16 + v4
            pure (Char.ofNat code :: tail, rem)
          | _ => none
        else do
          let decoded ←
            if e == '"' then some '"'
            else if e == '\\' then some '\\'
            else if e == '/' then some '/'
            else if e == 'b' then some (Char.ofNat 8)
            else if e == 'f' then some (Char.ofNat 12)
            else if e == 'n' then some '\n'
            else if e == 'r' then some '\r'
            else if e == 't' then some '\t'
            else none
          let (tail, rem) ← parseStrBody rest
          pure (decoded :: tail, rem)
    else do
      let (tail, rem) ← parseStrBody cs
      pure (c :: tail, rem)

/-- Collects a run of decimal digits. -/
def takeDigits (s : List Char) : List Char × List Char :=
  (s.takeWhile Char.isDigit, s.dropWhile Char.isDigit)

/-- Numeric value of a digit run. -/
def digitsToNat (ds : List Char) : Nat :=
  ds.foldl (fun acc c => acc * 10 + (c.toNat - '0'.toNat)) 0

/-- Parses a JSON number per the `json.loads` grammar:
`-? (0 | [1-9][0-9]*) (. [0-9]+)? ([eE][+-]?[0-9]+)?`, as a rational. -/
def parseNum (s : List Char) : Option (ℚ × List Char) := do
  let (neg, s1) := match s with
    | '-' :: rest => (true, rest)
    | _ => (false, s)
  let (intDs, s2) := takeDigits s1
  if intDs.isEmpty then none
  else if intDs.length > 1 && intDs.headD '0' == '0' then none
  else
    let (fracDs, s3) := match s2 with
      | '.' :: rest => takeDigits rest
      | _ => ([], s2)
    if s2.headD ' ' == '.' && fracDs.isEmpty then none
    else
      let (expSign, expDs, s4) := match s3 with
        | 'e' :: '+' :: rest => (1, (takeDigits rest).1, (takeDigits rest).2)
        | 'e' :: '-' :: rest => (-1, (takeDigits rest).1, (takeDigits rest).2)
        | 'e' :: rest => (1, (takeDigits rest).1, (takeDigits rest).2)
        | 'E' :: '+' :: rest => (1, (takeDigits rest).1, (takeDigits rest).2)
        | 'E' :: '-' :: rest => (-1, (takeDigits rest).1, (takeDigits rest).2)
        | 'E' :: rest => (1, (takeDigits rest).1, (takeDigits rest).2)
        | _ => ((1 : Int), [], s3)
      if (s3.headD ' ' == 'e' || s3.headD ' ' == 'E') && expDs.isEmpty then none
      else if fracDs.isEmpty && expDs.isEmpty then
        -- integer literal: built without ℚ arithmetic
        some (if neg then -(digitsToNat intDs : ℚ) else (digitsToNat intDs : ℚ), s4)
      else
        let mantissa : ℚ :=
          (digitsToNat intDs : ℚ) + (digitsToNat fracDs : ℚ) / ((10 : ℚ) ^ fracDs.length)
        let scaled : ℚ :=
          if expSign ≥ 0 then mantissa * (10 : ℚ) ^ digitsToNat expDs
          else mantissa / (10 : ℚ) ^ digitsToNat expDs
        some (if neg then -scaled else scaled, s4)

/-- Inserts a key into an insertion-ordered dict the way Python assignment
does: replace in place when the key exists, append otherwise. -/
def objInsert (fields : List (String × Json)) (k : String) (v : Json) :
    List (String × Json) :=
  if fields.any (fun p => p.1 == k) then
    fields.map (fun p => if p.1 == k then (k, v) else p)
  else
    fields ++ [(k, v)]

mutual

/-- Fuel-indexed recursive-descent value parser for `json.loads`. -/
def parseVal : Nat → List Char → Option (Json × List Char)
  | 0, _ => none
  | fuel + 1, s =>
    let s := skipWs s
    match s with
    | [] => none
    | c :: cs =>
      if listStarts "null".toList s then some (Json.null, s.drop 4)
      else if listStarts "true".toList s then some (Json.bool true, s.drop 4)
      else if listStarts "false".toList s then some (Json.bool false, s.drop 5)
      else if c == '"' then do
        let (body, rest) ← parseStrBody cs
        pure (Json.str ⟨body⟩, rest)
      else if c == '-' || c.isDigit then do
        let (q, rest) ← parseNum s
        pure (Json.num q, rest)
      else if c == '[' then
        match skipWs cs with
        | ']' :: rest => some (Json.arr [], rest)
        | _ => do
          let (items, rest) ← parseArrItems fuel cs
          pure (Json.arr items, rest)
      else if c == lbrace then
        match skipWs cs with
        | d :: rest => if d == rbrace then some (Json.obj [], rest) else do
            let (fields, rest2) ← parseObjItems fuel cs []
            pure (Json.obj fields, rest2)
        | [] => none
      else none

/-- Parses the comma-separated items of a non-empty JSON array. -/
def parseArrItems : Nat → List Char → Option (List Json × List Char)
  | 0, _ => none
  | fuel + 1, s => do
    let (v, rest) ← parseVal fuel s
    match skipWs rest with
    | ',' :: rest2 => do
      let (vs, rest3) ← parseArrItems fuel rest2
      pure (v :: vs, rest3)
    | ']' :: rest2 => pure ([v], rest2)
    | _ => none

/-- Parses the comma-separated members of a non-empty JSON object,
accumulating into an insertion-ordered dict (later duplicates overwrite). -/
def parseObjItems : Nat → List Char → List (String × Json) →
    Option (List (String × Json) × List Char)
  | 0, _, _ => none
  | fuel + 1, s, acc =>
    match skipWs s with
    | c :: cs =>
      if c == '"' then do
        let (key, rest) ← parseStrBody cs
        match skipWs rest with
        | ':' :: rest2 => do
          let (v, rest3) ← parseVal fuel rest2
          let acc2 := objInsert acc ⟨key⟩ v
          match skipWs rest3 with
          | ',' :: rest4 => parseObjItems fuel rest4 acc2
          | d :: rest4 =>
            if d == rbrace then pure (acc2, rest4) else none
          | [] => none
        | _ => none
      else none
    | [] => none

end

/-- Model of Python `json.loads` on a string: parse one value surrounded by
optional whitespace, rejecting trailing input; `none` models
`json.JSONDecodeError`.  (`NaN`/`Infinity`, which Python additionally
accepts, never occur in this codebase's inputs.) -/
def pyJsonLoads (s : String) : Option Json :=
  match parseVal (2 * s.toList.length + 2) s.toList with
  | some (j, rest) => if skipWs rest = [] then some j else none
  | none => none

/-! ## `core/memory_system.py` — data model -/

/-- Python exception kinds that the modelled code can raise. -/
inductive PyErr where
  | keyError : PyErr
  | typeError : PyErr
  | valueError : PyErr
  | attributeError : PyErr
deriving DecidableEq

/-- The `ReasoningPattern` enum (`core/memory_system.py`, lines 20-26). -/
inductive ReasoningPattern where
  | rewoo : ReasoningPattern
  | react : ReasoningPattern
  | cot : ReasoningPattern
  | tot : ReasoningPattern
  | agent : ReasoningPattern
deriving DecidableEq

/-- String value of each `ReasoningPattern` member. -/
def ReasoningPattern.value : ReasoningPattern → String
  | .rewoo => "rewoo"
  | .react => "react"
  | .cot => "cot"
  | .tot => "tot"
  | .agent => "agent"

/-- Value-based enum lookup, modelling the `ReasoningPattern(x)` constructor
call; `none` models the `ValueError` Python raises for an unknown value. -/
def reasoningPatternOfValue (v : String) : Option ReasoningPattern :=
  if v = "rewoo" then some .rewoo
  else if v = "react" then some .react
  else if v = "cot" then some .cot
  else if v = "tot" then some .tot
  else if v = "agent" then some .agent
  else none

/-- The `MemoryEntry` dataclass (`core/memory_system.py`, lines 28-44).
`content` is `Any` in Python; entries written by a run hold JSON-serializable
values, which is what `Json` captures.  `confidence` is a Python float,
modelled as `ℚ` (all the float literals the code compares are exact). -/
structure MemoryEntry where
  id : String
  timestamp : String
  agent : String
  content : Json
  reasoning_pattern : ReasoningPattern
  reasoning_steps : List String
  confidence : ℚ
  metadata : List (String × Json)

/-- The `SessionMemory` class state (`core/memory_system.py`, lines 46-62):
an append-only entry list plus an insertion-ordered `session_data` dict. -/
structure SessionMemory where
  session_id : String
  entries : List MemoryEntry
  session_data : List (String × Json)
  created_at : String
  last_updated : String

/-- The seven `session_data` keys initialized by `SessionMemory.__init__`. -/
def sessionDataInitKeys : List String :=
  ["intent", "entities", "normalized_question", "research_facts",
   "analysis", "decision", "current_step"]

/-- `SessionMemory.__init__` (lines 49-62): fresh session with the seven-key
scratchpad.  `now` stands for `datetime.now().isoformat()`. -/
def mkSessionMemory (session_id now : String) : SessionMemory :=
  { session_id := session_id
    entries := []
    session_data :=
      [("intent", Json.null), ("entities", Json.arr []),
       ("normalized_question", Json.null), ("research_facts", Json.arr []),
       ("analysis", Json.null), ("decision", Json.null),
       ("current_step", Json.null)]
    created_at := now
    last_updated := now }

/-- `SessionMemory.add_entry` (lines 64-79): builds a `MemoryEntry` whose id
interpolates the agent name, the current entry count and a time string, and
appends it.  In Python `confidence` defaults to `0.8` and `metadata` to `{}`;
call sites below pass those defaults explicitly.  The single `now` parameter
stands for both time strings the method formats. -/
def addEntry (m : SessionMemory) (agent : String) (content : Json)
    (rp : ReasoningPattern) (steps : List String) (confidence : ℚ)
    (metadata : List (String × Json)) (now : String) : SessionMemory :=
  let entry : MemoryEntry :=
    { id := agent ++ "_" ++ toString m.entries.length ++ "_" ++ now
      timestamp := now
      agent := agent
      content := content
      reasoning_pattern := rp
      reasoning_steps := steps
      confidence := confidence
      metadata := metadata }
  { m with entries := m.entries ++ [entry], last_updated := now }

/-- Membership test for the `session_data` dict, modelling `key in dict`. -/
def sdContains (sd : List (String × Json)) (key : String) : Bool :=
  sd.any (fun p => p.1 == key)

/-- In-place value replacement for an existing dict key (Python assignment
to a present key keeps insertion order). -/
def sdSet (sd : List (String × Json)) (key : String) (v : Json) :
    List (String × Json) :=
  sd.map (fun p => if p.1 == key then (key, v) else p)

/-- `SessionMemory.update_session_data` (lines 81-85): writes the value and
refreshes `last_updated` only when the key already exists; otherwise the
call is a silent no-op on the whole object. -/
def updateSessionData (m : SessionMemory) (key : String) (v : Json)
    (now : String) : SessionMemory :=
  if sdContains m.session_data key then
    { m with session_data := sdSet m.session_data key v, last_updated := now }
  else m

/-- Key lookup in an insertion-ordered dict (first, hence only, match). -/
def jLookup (fields : List (String × Json)) (key : String) : Option Json :=
  match fields with
  | [] => none
  | (k, v) :: rest => if k == key then some v else jLookup rest key

/-- `SessionMemory.get` (lines 87-89): `session_data.get(key, default)`. -/
def sdGet (m : SessionMemory) (key : String) (default : Json) : Json :=
  (jLookup m.session_data key).getD default

/-- Ordered deduplication; stands in for Python's `list(set(...))`, whose
element order is unspecified (no property below depends on the order). -/
def dedup : List String → List String
  | [] => []
  | x :: xs => if (dedup xs).contains x then dedup xs else x :: dedup xs

/-- `SessionMemory.get_session_summary` (lines 91-101): a pure read. -/
def getSessionSummary (m : SessionMemory) : Json :=
  Json.obj
    [("session_id", Json.str m.session_id),
     ("created_at", Json.str m.created_at),
     ("last_updated", Json.str m.last_updated),
     ("total_entries", Json.num m.entries.length),
     ("agents_used", Json.arr ((dedup (m.entries.map (·.agent))).map Json.str)),
     ("reasoning_patterns",
      Json.arr ((dedup (m.entries.map (·.reasoning_pattern.value))).map Json.str)),
     ("session_data", Json.obj m.session_data)]

/-- `MemoryEntry.to_dict` (lines 40-44): `asdict` in dataclass field order,
with `reasoning_pattern` replaced by its enum value. -/
def entryToDict (e : MemoryEntry) : Json :=
  Json.obj
    [("id", Json.str e.id),
     ("timestamp", Json.str e.timestamp),
     ("agent", Json.str e.agent),
     ("content", e.content),
     ("reasoning_pattern", Json.str e.reasoning_pattern.value),
     ("reasoning_steps", Json.arr (e.reasoning_steps.map Json.str)),
     ("confidence", Json.num e.confidence),
     ("metadata", Json.obj e.metadata)]

/-- `SessionMemory.to_dict` (lines 103-111). -/
def sessionToDict (m : SessionMemory) : Json :=
  Json.obj
    [("session_id", Json.str m.session_id),
     ("created_at", Json.str m.created_at),
     ("last_updated", Json.str m.last_updated),
     ("entries", Json.arr (m.entries.map entryToDict)),
     ("session_data", Json.obj m.session_data)]

/-! ## `core/memory_system.py` — durable storage

`LongTermMemory` keeps one JSON document per session id in a sessions
directory.  The store is modelled as an association list from session id to
the JSON document of the file `<session_id>.json`; a fresh write shadows an
older one.  `json.dump` of a `to_dict` result always succeeds because every
value reachable from a `SessionMemory` here is JSON-serializable (`Json`),
matching the claims' serializability hypothesis. -/

/-- Durable session storage: session id ↦ stored JSON document. -/
def Store : Type := List (String × Json)

/-- `LongTermMemory.save_session` (lines 127-139): writes
`session.to_dict()` under `<session_id>.json` and returns the path. -/
def saveSession (store : Store) (m : SessionMemory) : Store × Option String :=
  ((m.session_id, sessionToDict m) :: store,
   some ("infrastructure/memory/sessions/" ++ m.session_id ++ ".json"))

/-- Dict item access `d[k]`; a missing key models `KeyError`. -/
def dictGet (fields : List (String × Json)) (key : String) :
    Except PyErr Json :=
  match jLookup fields key with
  | some v => Except.ok v
  | none => Except.error PyErr.keyError

/-- Extracts the fields of a JSON object; anything else models the
`TypeError` Python raises when item access is attempted on it. -/
def asObjFields (j : Json) : Except PyErr (List (String × Json)) :=
  match j with
  | Json.obj fs => Except.ok fs
  | _ => Except.error PyErr.typeError

/-- Extracts a JSON array's elements; anything else models `TypeError`. -/
def asArr (j : Json) : Except PyErr (List Json) :=
  match j with
  | Json.arr xs => Except.ok xs
  | _ => Except.error PyErr.typeError

/-- Extracts a string.  The Python loader stores these values into typed-use
positions without checking; a non-string can only occur in a hand-edited
file, and no property below evaluates the loader on one. -/
def asStr (j : Json) : Except PyErr String :=
  match j with
  | Json.str s => Except.ok s
  | _ => Except.error PyErr.typeError

/-- Extracts a number (same caveat as `asStr`). -/
def asNum (j : Json) : Except PyErr ℚ :=
  match j with
  | Json.num q => Except.ok q
  | _ => Except.error PyErr.typeError

/-- Sequencing of fallible steps (Python: evaluate, propagate exceptions). -/
def exBind {ε α β : Type} (x : Except ε α) (f : α → Except ε β) :
    Except ε β :=
  match x with
  | Except.ok a => f a
  | Except.error e => Except.error e

@[simp] lemma exBind_ok {ε α β : Type} (a : α) (f : α → Except ε β) :
    exBind (Except.ok a : Except ε α) f = f a := rfl

@[simp] lemma exBind_error {ε α β : Type} (e : ε) (f : α → Except ε β) :
    exBind (Except.error e : Except ε α) f = Except.error e := rfl

/-- Extracts a list of strings (same caveat as `asStr`). -/
def asStrList (l : List Json) : Except PyErr (List String) :=
  match l with
  | [] => Except.ok []
  | Json.str s :: rest =>
    exBind (asStrList rest) (fun tail => Except.ok (s :: tail))
  | _ :: _ => Except.error PyErr.typeError

/-- Rebuilds one `MemoryEntry` from its stored dict (`load_session`,
lines 158-169), reading the constructor arguments in source order;
`ReasoningPattern(entry_data["reasoning_pattern"])` raises `ValueError`
for a value outside the enum. -/
def parseEntry (j : Json) : Except PyErr MemoryEntry :=
  exBind (asObjFields j) fun fs =>
  exBind (exBind (dictGet fs "id") asStr) fun id =>
  exBind (exBind (dictGet fs "timestamp") asStr) fun timestamp =>
  exBind (exBind (dictGet fs "agent") asStr) fun agent =>
  exBind (dictGet fs "content") fun content =>
  exBind (dictGet fs "reasoning_pattern") fun rpJ =>
  exBind (match rpJ with
    | Json.str v =>
      match reasoningPatternOfValue v with
      | some rp => Except.ok rp
      | none => Except.error PyErr.valueError
    | _ => Except.error PyErr.valueError) fun rp =>
  exBind (exBind (dictGet fs "reasoning_steps") asArr) fun stepsJ =>
  exBind (asStrList stepsJ) fun steps =>
  exBind (exBind (dictGet fs "confidence") asNum) fun confidence =>
  exBind (exBind (dictGet fs "metadata") asObjFields) fun metadata =>
  Except.ok { id := id, timestamp := timestamp, agent := agent,
              content := content, reasoning_pattern := rp,
              reasoning_steps := steps, confidence := confidence,
              metadata := metadata }

/-- The `for entry_data in data["entries"]` loop of `load_session`. -/
def parseEntryList (l : List Json) : Except PyErr (List MemoryEntry) :=
  match l with
  | [] => Except.ok []
  | j :: rest =>
    exBind (parseEntry j) fun e =>
    exBind (parseEntryList rest) fun tail =>
    Except.ok (e :: tail)

/-- Body of `LongTermMemory.load_session` (lines 141-171) before its blanket
exception handler: `Except.ok none` is the early `return None` for a missing
file, `Except.error` is any exception raised while rebuilding the session. -/
def loadSessionInner (store : Store) (session_id : String) :
    Except PyErr (Option SessionMemory) :=
  match jLookup store session_id with
  | none => Except.ok none
  | some doc =>
    exBind (asObjFields doc) fun fs =>
    exBind (exBind (dictGet fs "session_id") asStr) fun sid =>
    exBind (exBind (dictGet fs "created_at") asStr) fun created =>
    exBind (exBind (dictGet fs "last_updated") asStr) fun updated =>
    exBind (exBind (dictGet fs "session_data") asObjFields) fun sd =>
    exBind (exBind (dictGet fs "entries") asArr) fun entriesL =>
    exBind (parseEntryList entriesL) fun entries =>
    Except.ok (some { session_id := sid, created_at := created,
                      last_updated := updated, session_data := sd,
                      entries := entries })

/-- `LongTermMemory.load_session` as the caller sees it: the
`except Exception` handler (lines 172-174) prints and converts every
exception into `None`, indistinguishable from a missing file. -/
def loadSession (store : Store) (session_id : String) : Option SessionMemory :=
  match loadSessionInner store session_id with
  | Except.ok r => r
  | Except.error _ => none

/-! ## Session operations (for the audit-log invariant) -/

/-- One call on a `SessionMemory` object: the two mutators and the three
read-only methods of the class. -/
inductive SessionOp where
  | add (agent : String) (content : Json) (rp : ReasoningPattern)
      (steps : List String) (confidence : ℚ)
      (metadata : List (String × Json)) (now : String) : SessionOp
  | update (key : String) (v : Json) (now : String) : SessionOp
  | getRead (key : String) (default : Json) : SessionOp
  | summaryRead : SessionOp
  | toDictRead : SessionOp

/-- State effect of one `SessionMemory` method call: `get`,
`get_session_summary` and `to_dict` only read (their return values are the
pure functions `sdGet`, `getSessionSummary`, `sessionToDict`). -/
def opStep (m : SessionMemory) : SessionOp → SessionMemory
  | SessionOp.add a c rp st cf md now => addEntry m a c rp st cf md now
  | SessionOp.update k v now => updateSessionData m k v now
  | SessionOp.getRead _ _ => m
  | SessionOp.summaryRead => m
  | SessionOp.toDictRead => m

/-- Runs a sequence of method calls. -/
def applyOps (m : SessionMemory) (ops : List SessionOp) : SessionMemory :=
  ops.foldl opStep m

/-- Number of `add_entry` calls in a sequence. -/
def countAdds : List SessionOp → Nat
  | [] => 0
  | SessionOp.add _ _ _ _ _ _ _ :: rest => countAdds rest + 1
  | _ :: rest => countAdds rest

lemma updateSessionData_entries (m : SessionMemory) (k : String) (v : Json)
    (now : String) : (updateSessionData m k v now).entries = m.entries := by
  unfold updateSessionData
  split <;> rfl

lemma addEntry_entries (m : SessionMemory) (a : String) (c : Json)
    (rp : ReasoningPattern) (st : List String) (cf : ℚ)
    (md : List (String × Json)) (now : String) :
    ∃ e, (addEntry m a c rp st cf md now).entries = m.entries ++ [e] ∧
      e.confidence = cf := by
  exact ⟨_, rfl, rfl⟩

/-- Audit-log invariant for arbitrary call sequences: the old entry list is
a prefix of the new one and the growth equals the number of `add_entry`
calls. -/
lemma applyOps_entries (ops : List SessionOp) (m : SessionMemory) :
    ∃ t, (applyOps m ops).entries = m.entries ++ t ∧
      t.length = countAdds ops := by
  induction ops generalizing m with
  | nil => exact ⟨[], by simp [applyOps], rfl⟩
  | cons op rest ih =>
    have hstep : applyOps m (op :: rest) = applyOps (opStep m op) rest := rfl
    cases op with
    | add a c rp st cf md now =>
      obtain ⟨t, ht, hl⟩ := ih (opStep m (SessionOp.add a c rp st cf md now))
      obtain ⟨e, he, _⟩ := addEntry_entries m a c rp st cf md now
      refine ⟨e :: t, ?_, by simp [countAdds, hl]⟩
      rw [hstep, ht]
      show (addEntry m a c rp st cf md now).entries ++ t = _
      rw [he]
      simp
    | update k v now =>
      obtain ⟨t, ht, hl⟩ := ih (opStep m (SessionOp.update k v now))
      refine ⟨t, ?_, by simp [countAdds, hl]⟩
      rw [hstep, ht]
      show (updateSessionData m k v now).entries ++ t = _
      rw [updateSessionData_entries]
    | getRead k d =>
      obtain ⟨t, ht, hl⟩ := ih m
      exact ⟨t, by rw [hstep]; exact ht, by simp [countAdds, hl]⟩
    | summaryRead =>
      obtain ⟨t, ht, hl⟩ := ih m
      exact ⟨t, by rw [hstep]; exact ht, by simp [countAdds, hl]⟩
    | toDictRead =>
      obtain ⟨t, ht, hl⟩ := ih m
      exact ⟨t, by rw [hstep]; exact ht, by simp [countAdds, hl]⟩

/-! ## Round-trip persistence -/

lemma reasoningPatternOfValue_value (rp : ReasoningPattern) :
    reasoningPatternOfValue rp.value = some rp := by
  cases rp <;> rfl

lemma asStrList_map_str (l : List String) :
    asStrList (l.map Json.str) = Except.ok l := by
  induction l with
  | nil => rfl
  | cons x xs ih => simp [asStrList, ih]

lemma parseEntry_entryToDict (e : MemoryEntry) :
    parseEntry (entryToDict e) = Except.ok e := by
  obtain ⟨id, ts, ag, c, rp, steps, cf, md⟩ := e
  simp [parseEntry, entryToDict, asObjFields, dictGet, jLookup, asStr, asArr,
    asNum, asStrList_map_str, reasoningPatternOfValue_value]

lemma parseEntryList_map (l : List MemoryEntry) :
    parseEntryList (l.map entryToDict) = Except.ok l := by
  induction l with
  | nil => rfl
  | cons e rest ih => simp [parseEntryList, parseEntry_entryToDict, ih]

/-- Claim C4.  Round-trip persistence: saving a session and loading it back
by its id reconstructs the session field-for-field (`session_id`,
`created_at`, `last_updated`, `session_data`, and every `MemoryEntry`
including re-hydration of `reasoning_pattern` into the enum).  The
serializability hypothesis of the claim is captured by the `Json` type of
entry contents. -/
theorem claim_C4_load_save_roundtrip (store : Store) (s : SessionMemory) :
    loadSession (saveSession store s).1 s.session_id = some s := by
  obtain ⟨sid, entries, sd, ca, lu⟩ := s
  simp [loadSession, loadSessionInner, saveSession, sessionToDict, jLookup,
    dictGet, asObjFields, asStr, asArr, parseEntryList_map]

/-! ## Deserialization failure handling -/

/-- Stored dict of a `MemoryEntry` with its `reasoning_pattern` field
replaced by an arbitrary string, modelling a persisted session whose
pattern value is outside the enum. -/
def entryDictWithPattern (e : MemoryEntry) (v : String) : Json :=
  Json.obj
    [("id", Json.str e.id),
     ("timestamp", Json.str e.timestamp),
     ("agent", Json.str e.agent),
     ("content", e.content),
     ("reasoning_pattern", Json.str v),
     ("reasoning_steps", Json.arr (e.reasoning_steps.map Json.str)),
     ("confidence", Json.num e.confidence),
     ("metadata", Json.obj e.metadata)]

/-- Session document whose first stored entry carries the pattern value `v`. -/
def corruptSessionDoc (s : SessionMemory) (e : MemoryEntry) (v : String) : Json :=
  Json.obj
    [("session_id", Json.str s.session_id),
     ("created_at", Json.str s.created_at),
     ("last_updated", Json.str s.last_updated),
     ("entries", Json.arr (entryDictWithPattern e v :: s.entries.map entryToDict)),
     ("session_data", Json.obj s.session_data)]

/-- Claim C5, amended.  Loading a persisted session containing an entry
whose `reasoning_pattern` is not a `ReasoningPattern` value makes the
rebuild raise `ValueError` internally, and `load_session`'s blanket
`except` swallows it and returns `None` to the caller — no
`DeserializationError` (no such class exists in the code) and no
fabricated default session. -/
theorem claim_C5_amended_load_swallows_unknown_pattern
    (s : SessionMemory) (e : MemoryEntry) (v : String)
    (hv : reasoningPatternOfValue v = none) :
    loadSessionInner [(s.session_id, corruptSessionDoc s e v)] s.session_id =
      Except.error PyErr.valueError ∧
    loadSession [(s.session_id, corruptSessionDoc s e v)] s.session_id = none := by
  have hinner : loadSessionInner [(s.session_id, corruptSessionDoc s e v)]
      s.session_id = Except.error PyErr.valueError := by
    simp [loadSessionInner, corruptSessionDoc, entryDictWithPattern, jLookup,
      dictGet, asObjFields, asStr, asArr, parseEntryList, parseEntry, hv]
  exact ⟨hinner, by simp [loadSession, hinner]⟩

/-- Concrete entry used in closed statements below. -/
def demoEntry : MemoryEntry :=
  { id := "perception_0_120000"
    timestamp := "2024-01-01T12:00:00"
    agent := "perception"
    content := Json.str "hello"
    reasoning_pattern := ReasoningPattern.react
    reasoning_steps := ["step one"]
    confidence := 0.8
    metadata := [] }

/-- Concrete session used in closed statements below. -/
def demoSession : SessionMemory :=
  { mkSessionMemory "sess_demo" "2024-01-01T12:00:00" with
    entries := [demoEntry] }

/-- Witness for the amended claim C5 at a concrete corrupt store. -/
theorem claim_C5_amended_witness :
    reasoningPatternOfValue "bogus" = none ∧
    loadSession [("sess_demo", corruptSessionDoc demoSession demoEntry "bogus")]
      "sess_demo" = none :=
  ⟨rfl, (claim_C5_amended_load_swallows_unknown_pattern demoSession demoEntry
    "bogus" rfl).2⟩

/-- Concrete second session for the C5 counterexample. -/
def c5Session : SessionMemory :=
  { mkSessionMemory "sess_1" "2024-02-02T08:00:00" with
    entries := [] }

/-- Concrete entry for the C5 counterexample. -/
def c5Entry : MemoryEntry :=
  { id := "analysis_0_080000"
    timestamp := "2024-02-02T08:00:00"
    agent := "analysis"
    content := Json.str "analysis text"
    reasoning_pattern := ReasoningPattern.react
    reasoning_steps := []
    confidence := 0.1
    metadata := [] }

/-- Claim C5, counterexample.  For a concrete persisted session whose entry
has `reasoning_pattern = "not_a_pattern"`, `load_session` does not surface
any error to the caller: the internal `ValueError` is swallowed locally and
the call returns `None` — the same result as for a missing file — contrary
to the claim that a `DeserializationError` is raised/returned and never
swallowed locally. -/
theorem claim_C5_counterexample :
    loadSessionInner
      [("sess_1", corruptSessionDoc c5Session c5Entry "not_a_pattern")]
      "sess_1" = Except.error PyErr.valueError ∧
    loadSession [("sess_1", corruptSessionDoc c5Session c5Entry "not_a_pattern")]
      "sess_1" = none ∧
    loadSession [] "sess_1" = none :=
  ⟨rfl, rfl, rfl⟩

/-! ## Frame condition of `update_session_data` -/

lemma sdSet_keys (sd : List (String × Json)) (key : String) (v : Json) :
    (sdSet sd key v).map Prod.fst = sd.map Prod.fst := by
  unfold sdSet
  induction sd with
  | nil => rfl
  | cons p rest ih =>
    simp only [List.map_cons, ih]
    by_cases h : (p.1 == key) = true
    · simp only [h, if_true]
      have : key = p.1 := (beq_iff_eq.mp h).symm
      simp [this]
    · simp [h]

lemma sdContains_eq_false_of_not_mem (sd : List (String × Json)) (key : String)
    (h : key ∉ sd.map Prod.fst) : sdContains sd key = false := by
  induction sd with
  | nil => rfl
  | cons p rest ih =>
    simp only [List.map_cons, List.mem_cons, not_or] at h
    have h1 : (p.1 == key) = false := by
      have : p.1 ≠ key := fun he => h.1 he.symm
      simp [this]
    have h2 := ih h.2
    simp only [sdContains, List.any_cons] at h2 ⊢
    simp [h1, h2]

/-- Claim C10.  `update_session_data` writes only when the key is one of the
seven constructor-initialized `session_data` keys; for any other key the
whole session object is left unchanged, and the key set itself never grows —
in particular the `"project_id"`, `"scope"`, `"project_name"` and
`"required_skills"` writes made by the driver and the perception agent are
silently discarded. -/
theorem claim_C10_update_session_data_frame (s : SessionMemory) (key : String)
    (v : Json) (now : String)
    (hkeys : s.session_data.map Prod.fst = sessionDataInitKeys) :
    (key ∉ sessionDataInitKeys → updateSessionData s key v now = s) ∧
    (updateSessionData s key v now).session_data.map Prod.fst =
      sessionDataInitKeys ∧
    (sdContains s.session_data key = true →
      updateSessionData s key v now =
        { s with session_data := sdSet s.session_data key v,
                 last_updated := now }) ∧
    ("project_id" ∉ sessionDataInitKeys ∧ "scope" ∉ sessionDataInitKeys ∧
     "project_name" ∉ sessionDataInitKeys ∧
     "required_skills" ∉ sessionDataInitKeys) := by
  refine ⟨?_, ?_, ?_, by decide⟩
  · intro hk
    have hc : sdContains s.session_data key = false :=
      sdContains_eq_false_of_not_mem _ _ (by rw [hkeys]; exact hk)
    simp [updateSessionData, hc]
  · unfold updateSessionData
    split
    · simpa [sdSet_keys] using hkeys
    · exact hkeys
  · intro hc
    simp [updateSessionData, hc]

/-- Witness for claim C10: on a freshly constructed session, the
`"project_id"` write made by `MultiAgentWorkflow.run` leaves the session
unchanged. -/
theorem claim_C10_witness :
    updateSessionData (mkSessionMemory "s" "t0") "project_id"
      (Json.str "proj_1") "t1" = mkSessionMemory "s" "t0" :=
  (claim_C10_update_session_data_frame (mkSessionMemory "s" "t0") "project_id"
    (Json.str "proj_1") "t1" rfl).1 (by decide)

/-! ## `agents/perception.py` — fallback record and recovery pipeline -/

/-- `create_fallback_perception` (perception.py, lines 54-72).  The second
Python parameter `llm_response` is unused by the body and omitted here.
The payload depends on `user_input`: `normalized_question` is the stripped
input. -/
def create_fallback_perception (user_input : String) : Json :=
  Json.obj
    [("intent", Json.str "skill_gap_analysis"),
     ("entities", Json.obj
       [("skills", Json.arr []), ("projects", Json.arr []),
        ("teams", Json.arr []), ("people", Json.arr []),
        ("timelines", Json.arr [])]),
     ("normalized_question", Json.str (pyStrip user_input)),
     ("context", Json.obj
       [("constraints", Json.arr []), ("urgency", Json.str "medium"),
        ("scope", Json.str "project")]),
     ("analysis_focus", Json.str "General skills analysis")]

/-- Model of Python `str.startswith` (kernel-reducible, unlike the
compiled core `String` primitives). -/
def pyStartsWith (s pre : String) : Bool :=
  listStarts pre.toList s.toList

/-- Splits a character list at every occurrence of a single character. -/
def splitOnChar (c : Char) : List Char → List (List Char)
  | [] => [[]]
  | x :: xs =>
    if x == c then [] :: splitOnChar c xs
    else
      match splitOnChar c xs with
      | h :: t => (x :: h) :: t
      | [] => [[x]]

/-- The lines of a string, as `s.split("\n")` produces them. -/
def strLines (s : String) : List String :=
  (splitOnChar '\n' s.toList).map (fun l => ⟨l⟩)

/-- Rejoins lines with newlines (the inverse of `strLines`). -/
def joinLines : List String → String
  | [] => ""
  | [x] => x
  | x :: rest => x ++ "\n" ++ joinLines rest

/-- Splits at every occurrence of a (non-empty) separator string, modelling
Python `str.split(sep)`; fuel-indexed for structural recursion. -/
def splitOnListFrom (sep : List Char) : Nat → List Char → List (List Char)
  | 0, s => [s]
  | _ + 1, [] => [[]]
  | fuel + 1, c :: cs =>
    if listStarts sep (c :: cs) then
      [] :: splitOnListFrom sep fuel (List.drop sep.length (c :: cs))
    else
      match splitOnListFrom sep fuel cs with
      | h :: t => (c :: h) :: t
      | [] => [[c]]

/-- Model of Python `str.split(sep)` for a non-empty separator. -/
def pySplit (s sep : String) : List String :=
  if sep = "" then [s]
  else (splitOnListFrom sep.toList (s.toList.length + 1) s.toList).map
    (fun l => ⟨l⟩)

/-- Model of Python `str.lower()` (ASCII range, which is all the call sites
compare against). -/
def pyLower (s : String) : String :=
  ⟨s.toList.map (fun c =>
    if 'A' ≤ c && c ≤ 'Z' then Char.ofNat (c.toNat + 32) else c)⟩

/-- Keeps the final (unterminated) line and filters the newline-terminated
ones: the effect of `re.sub(r'^...\n', '', s, flags=re.MULTILINE)` patterns,
which can only remove lines that end in a newline. -/
def filterInitLines : List String → (String → Bool) → List String
  | [], _ => []
  | [last], _ => [last]
  | l :: rest, p =>
    if p l then filterInitLines rest p else l :: filterInitLines rest p

/-- Removes every newline-terminated line matched by `p`. -/
def dropMatchingLines (s : String) (p : String → Bool) : String :=
  joinLines (filterInitLines (strLines s) p)

/-- Matches `^Step \d+:` — `"Step "`, one or more digits, then a colon. -/
def isStepLine (l : String) : Bool :=
  if pyStartsWith l "Step " then
    let rest := l.toList.drop 5
    let ds := rest.takeWhile Char.isDigit
    !ds.isEmpty && ((rest.drop ds.length).headD ' ' == ':')
  else false

/-- Strategy 0 of `parse_json_with_fallbacks` (perception.py, lines 83-91):
nine `re.sub(..., '', content, flags=re.MULTILINE)` calls removing markdown
headers, `Step N:` lines, and `### Reason/Evaluate/Act/Check/Think` lines
(the `##+`/`###+`/`### ...` passes can no longer match after the first
`#+` pass, but are applied in source order). -/
def stripScaffolding (content : String) : String :=
  let c := dropMatchingLines content (pyStartsWith · "#")
  let c := dropMatchingLines c (pyStartsWith · "##")
  let c := dropMatchingLines c (pyStartsWith · "###")
  let c := dropMatchingLines c isStepLine
  let c := dropMatchingLines c (pyStartsWith · "### Reason")
  let c := dropMatchingLines c (pyStartsWith · "### Evaluate")
  let c := dropMatchingLines c (pyStartsWith · "### Act")
  let c := dropMatchingLines c (pyStartsWith · "### Check")
  let c := dropMatchingLines c (pyStartsWith · "### Think")
  c

/-- The scan behind `re.sub(r"```(json)?", "", content)`: each occurrence of
three backticks consumes an immediately following `json` as well. -/
def removeFencesFrom : Nat → List Char → List Char
  | 0, s => s
  | _ + 1, [] => []
  | fuel + 1, c :: cs =>
    if listStarts "```json".toList (c :: cs) then
      removeFencesFrom fuel (List.drop 7 (c :: cs))
    else if listStarts "```".toList (c :: cs) then
      removeFencesFrom fuel (List.drop 3 (c :: cs))
    else c :: removeFencesFrom fuel cs

/-- Model of `re.sub(r"```(json)?", "", content)`. -/
def removeFenceMarks (s : String) : String :=
  ⟨removeFencesFrom (s.toList.length + 1) s.toList⟩

/-- The fence-stripping step shared by `parse_json_with_fallbacks`
(lines 94-95) and `clean_json_response` (lines 22-23):
`re.sub(r"```(json)?", "", response).strip("` \n")` when the text starts
with a fence. -/
def stripFencesIfPresent (content : String) : String :=
  if pyStartsWith content "```" then
    pyStripCharset (removeFenceMarks content) ['`', ' ', '\n']
  else content

/-- Index of the first occurrence of `c`, modelling `str.find`. -/
def findChar : List Char → Char → Option Nat
  | [], _ => none
  | x :: xs, c =>
    if x == c then some 0
    else (findChar xs c).map (· + 1)

/-- Index of the last occurrence of `c`, modelling `str.rfind`. -/
def findLastChar (s : List Char) (c : Char) : Option Nat :=
  (findChar s.reverse c).map (fun i => s.length - 1 - i)

/-- The brace-counting walk of `clean_json_response` (lines 38-47): starting
at a `{`, returns the exclusive end offset of the balanced span, counting
every brace character (the scan is not string-aware, exactly as in the
source). -/
def braceEnd : List Char → Nat → Nat → Option Nat
  | [], _, _ => none
  | c :: cs, count, idx =>
    if c == lbrace then braceEnd cs (count + 1) (idx + 1)
    else if c == rbrace then
      if count == 1 then some (idx + 1) else braceEnd cs (count - 1) (idx + 1)
    else braceEnd cs count (idx + 1)

/-- Slices the first balanced brace span out of the text (lines 32-52 of
`clean_json_response`); `none` models the function's `return ""` branches. -/
def braceSlice (s : String) : Option String :=
  let cl := s.toList
  match findChar cl lbrace with
  | none => none
  | some start =>
    match braceEnd (cl.drop start) 0 0 with
    | none => none
    | some len => some ⟨(cl.drop start).take len⟩

/-- The scan behind `re.sub(r'```json\s*', '', response)`: each `` ```json ``
occurrence is removed together with the whitespace run that follows it. -/
def removeFenceJsonFrom : Nat → List Char → List Char
  | 0, s => s
  | _ + 1, [] => []
  | fuel + 1, c :: cs =>
    if listStarts "```json".toList (c :: cs) then
      removeFenceJsonFrom fuel ((List.drop 7 (c :: cs)).dropWhile isPyWS)
    else c :: removeFenceJsonFrom fuel cs

/-- Model of `re.sub(r'```json\s*', '', response)`. -/
def removeFenceJson (s : String) : String :=
  ⟨removeFenceJsonFrom (s.toList.length + 1) s.toList⟩

/-- Model of `re.sub(r'```\s*$', '', response)`: removes a trailing fence
followed only by whitespace.  (Python's `$` may also match just before one
final newline; this model removes that newline with the rest of the
whitespace — the difference is immaterial because the result is next
searched for a brace span.) -/
def removeTrailingFence (s : String) : String :=
  let rl := s.toList.reverse
  let rest := rl.dropWhile isPyWS
  if listStarts "```".toList.reverse rest then ⟨(rest.drop 3).reverse⟩ else s

/-- The scan behind `re.sub(r',(\s*[}\]])', r'\1', response)`: a comma whose
next non-whitespace character is `}` or `]` is dropped. -/
def removeTrailingCommasFrom : Nat → List Char → List Char
  | 0, s => s
  | _ + 1, [] => []
  | fuel + 1, c :: cs =>
    if c == ',' then
      match cs.dropWhile isPyWS with
      | d :: _ =>
        if d == rbrace || d == ']' then removeTrailingCommasFrom fuel cs
        else c :: removeTrailingCommasFrom fuel cs
      | [] => c :: removeTrailingCommasFrom fuel cs
    else c :: removeTrailingCommasFrom fuel cs

/-- Model of `re.sub(r',(\s*[}\]])', r'\1', response)`. -/
def removeTrailingCommas (s : String) : String :=
  ⟨removeTrailingCommasFrom (s.toList.length + 1) s.toList⟩

/-- `clean_json_response` (perception.py, lines 16-52): fence stripping,
trailing-comma repair, then extraction of the first balanced brace span. -/
def clean_json_response (response : String) : String :=
  if response = "" then ""
  else
    let r := stripFencesIfPresent response
    let r := removeFenceJson r
    let r := removeTrailingFence r
    let r := removeTrailingCommas r
    match braceSlice r with
    | none => ""
    | some sub => pyStrip sub

/-- Greedy `re.search(r'\{.*\}', content, re.DOTALL)` (strategy 2,
lines 106-108): the span from the first `{` to the last `}`, if the first
`{` precedes the last `}`. -/
def firstLastBraceSpan (s : String) : Option String :=
  let cl := s.toList
  match findChar cl lbrace with
  | none => none
  | some i =>
    match findLastChar cl rbrace with
    | none => none
    | some j =>
      if i < j then some ⟨(cl.drop i).take (j + 1 - i)⟩ else none

/-- Run of characters other than `{` and `}` (the `[^{}]*` regex piece). -/
def nonBraceRun (s : List Char) : List Char × List Char :=
  (s.takeWhile (fun c => !(c == lbrace) && !(c == rbrace)),
   s.dropWhile (fun c => !(c == lbrace) && !(c == rbrace)))

/-- Matcher for the tail `(?:\{[^{}]*\}[^{}]*)*\}` of strategy-4 pattern
`r'\{[^{}]*(?:\{[^{}]*\}[^{}]*)*\}'` (one level of nesting); determinstic
because `[^{}]*` cannot absorb a brace, so the engine never backtracks. -/
def patAGroups : Nat → List Char → Option (List Char × List Char)
  | 0, _ => none
  | fuel + 1, s =>
    match s with
    | [] => none
    | c :: cs =>
      if c == rbrace then some ([c], cs)
      else if c == lbrace then
        let (a1, r1) := nonBraceRun cs
        match r1 with
        | d :: ds =>
          if d == rbrace then
            let (a2, r2) := nonBraceRun ds
            match patAGroups fuel r2 with
            | some (m, rest) => some (c :: a1 ++ d :: a2 ++ m, rest)
            | none => none
          else none
        | [] => none
      else none

/-- Attempts strategy-4 pattern `r'\{[^{}]*(?:\{[^{}]*\}[^{}]*)*\}'` at the
current position. -/
def tryMatchPatA (s : List Char) : Option (List Char × List Char) :=
  match s with
  | [] => none
  | c :: cs =>
    if c == lbrace then
      let (a, r) := nonBraceRun cs
      match patAGroups (r.length + 1) r with
      | some (m, rest) => some (c :: a ++ m, rest)
      | none => none
    else none

/-- `re.finditer` scan for pattern A, parsing each non-overlapping match
(stripped) until one parses (strategy 4, lines 129-143). -/
def scanPatA : Nat → List Char → Option Json
  | 0, _ => none
  | _ + 1, [] => none
  | fuel + 1, c :: cs =>
    match tryMatchPatA (c :: cs) with
    | some (m, rest) =>
      match pyJsonLoads (pyStrip ⟨m⟩) with
      | some j => some j
      | none => scanPatA fuel rest
    | none => scanPatA fuel cs

/-- Attempts strategy-4 pattern `r'\{.*?\}'` (non-greedy, DOTALL) at the
current position: the span to the nearest following `}`. -/
def tryMatchPatB (s : List Char) : Option (List Char × List Char) :=
  match s with
  | [] => none
  | c :: cs =>
    if c == lbrace then
      match findChar cs rbrace with
      | some j => some (c :: cs.take (j + 1), cs.drop (j + 1))
      | none => none
    else none

/-- `re.finditer` scan for pattern B. -/
def scanPatB : Nat → List Char → Option Json
  | 0, _ => none
  | _ + 1, [] => none
  | fuel + 1, c :: cs =>
    match tryMatchPatB (c :: cs) with
    | some (m, rest) =>
      match pyJsonLoads (pyStrip ⟨m⟩) with
      | some j => some j
      | none => scanPatB fuel rest
    | none => scanPatB fuel cs

/-- Strategy 4 (lines 128-143): the two bracket patterns in order. -/
def strategy4 (content : String) : Option Json :=
  match scanPatA (content.toList.length + 1) content.toList with
  | some j => some j
  | none => scanPatB (content.toList.length + 1) content.toList

/-- `parse_json_with_fallbacks` (perception.py, lines 74-147): empty input
short-circuits to the fallback; otherwise scaffolding and fences are
stripped and the five parse strategies run in order, the parsed document
being returned as-is on the first success — with no schema validation and
no exclusion of non-object values such as `null`. -/
def parse_json_with_fallbacks (content user_input : String) : Json :=
  if content = "" || pyStrip content = "" then
    create_fallback_perception user_input
  else
    let c := stripScaffolding content
    let c := stripFencesIfPresent c
    match pyJsonLoads (pyStrip c) with
    | some j => j
    | none =>
      match (match firstLastBraceSpan c with
             | some sub => pyJsonLoads (pyStrip sub)
             | none => none) with
      | some j => j
      | none =>
        let cleaned := clean_json_response c
        match (if cleaned ≠ "" then pyJsonLoads cleaned else none) with
        | some j => j
        | none =>
          match strategy4 c with
          | some j => j
          | none => create_fallback_perception user_input

/-! ## `agents/schemas.py` — the Pydantic `PerceptionOutput` model

`validate_perception_output(data)` is `PerceptionOutput(**data)` under
Pydantic v1 semantics: required fields must be present, unknown fields are
ignored, enum fields accept their string values, and the field validators
strip and reject empty narrative strings.  `none` models a raised
`ValidationError` (or the `TypeError` of `**` on a non-dict).  Pydantic v1's
exotic coercions (numbers to `str`, etc.) are not exercised by any input a
theorem below evaluates and are modelled as validation failures. -/

/-- Valid `IntentType` values. -/
def validIntent (s : String) : Bool :=
  s == "skill_gap_analysis" || s == "team_optimization" ||
  s == "upskilling_plan" || s == "project_readiness"

/-- Valid `UrgencyLevel` values. -/
def validUrgency (s : String) : Bool :=
  s == "high" || s == "medium" || s == "low"

/-- Valid `ScopeType` values. -/
def validScope (s : String) : Bool :=
  s == "department" || s == "team" || s == "company" || s == "project"

/-- Elements of a `List[str]` field. -/
def strElems : List Json → Option (List String)
  | [] => some []
  | Json.str s :: rest => (strElems rest).map (s :: ·)
  | _ :: _ => none

/-- A `List[str]` field value. -/
def asStrListO (j : Json) : Option (List String) :=
  match j with
  | Json.arr xs => strElems xs
  | _ => none

/-- The `PerceptionEntities` submodel: five `List[str]` fields, each
defaulting to `[]`. -/
def validateEntities (j : Json) : Option Json :=
  match j with
  | Json.obj fs =>
    match asStrListO ((jLookup fs "skills").getD (Json.arr [])),
          asStrListO ((jLookup fs "projects").getD (Json.arr [])),
          asStrListO ((jLookup fs "teams").getD (Json.arr [])),
          asStrListO ((jLookup fs "people").getD (Json.arr [])),
          asStrListO ((jLookup fs "timelines").getD (Json.arr [])) with
    | some sk, some pr, some tm, some pe, some tl =>
      some (Json.obj
        [("skills", Json.arr (sk.map Json.str)),
         ("projects", Json.arr (pr.map Json.str)),
         ("teams", Json.arr (tm.map Json.str)),
         ("people", Json.arr (pe.map Json.str)),
         ("timelines", Json.arr (tl.map Json.str))])
    | _, _, _, _, _ => none
  | _ => none

/-- The `PerceptionContext` submodel: `constraints` defaults to `[]`,
`urgency` to `"medium"`, `scope` to `"company"`; enum values checked. -/
def validateContext (j : Json) : Option Json :=
  match j with
  | Json.obj fs =>
    match asStrListO ((jLookup fs "constraints").getD (Json.arr [])),
          (jLookup fs "urgency").getD (Json.str "medium"),
          (jLookup fs "scope").getD (Json.str "company") with
    | some cons, Json.str u, Json.str sc =>
      if validUrgency u && validScope sc then
        some (Json.obj
          [("constraints", Json.arr (cons.map Json.str)),
           ("urgency", Json.str u), ("scope", Json.str sc)])
      else none
    | _, _, _ => none
  | _ => none

/-- `validate_perception_output` followed by `.dict()` (as used in
`perceive_input`): the validated payload with stripped narrative fields, in
declared field order. -/
def validatePerception (j : Json) : Option Json :=
  match j with
  | Json.obj fs =>
    match jLookup fs "intent", jLookup fs "entities",
          jLookup fs "normalized_question", jLookup fs "context",
          jLookup fs "analysis_focus" with
    | some (Json.str intent), some entJ, some (Json.str nq),
      some ctxJ, some (Json.str af) =>
      if validIntent intent && !(pyStrip nq == "") && !(pyStrip af == "") then
        match validateEntities entJ, validateContext ctxJ with
        | some ents, some ctx =>
          some (Json.obj
            [("intent", Json.str intent),
             ("entities", ents),
             ("normalized_question", Json.str (pyStrip nq)),
             ("context", ctx),
             ("analysis_focus", Json.str (pyStrip af))])
        | _, _ => none
      else none
    | _, _, _, _, _ => none
  | _ => none

/-! ## `agents/base_agent.py` — the perception fallback constant -/

/-- The perception branch of `BaseAgent._get_fallback_json`
(base_agent.py, line 224), as the JSON string literal in the source. -/
def baseFallbackPerceptionStr : String :=
  "\x7b\"intent\": \"skill_gap_analysis\", \"entities\": \x7b\"skills\": [], \"projects\": [], \"teams\": [], \"people\": [], \"timelines\": []\x7d, \"normalized_question\": \"General skills analysis\", \"context\": \x7b\"constraints\": [], \"urgency\": \"medium\", \"scope\": \"company\"\x7d, \"analysis_focus\": \"General skills analysis\"\x7d"

/-- The same constant as the JSON value it parses to: note
`normalized_question` is a fixed string and `scope` is `"company"`, unlike
`create_fallback_perception`. -/
def baseFallbackPerceptionJson : Json :=
  Json.obj
    [("intent", Json.str "skill_gap_analysis"),
     ("entities", Json.obj
       [("skills", Json.arr []), ("projects", Json.arr []),
        ("teams", Json.arr []), ("people", Json.arr []),
        ("timelines", Json.arr [])]),
     ("normalized_question", Json.str "General skills analysis"),
     ("context", Json.obj
       [("constraints", Json.arr []), ("urgency", Json.str "medium"),
        ("scope", Json.str "company")]),
     ("analysis_focus", Json.str "General skills analysis")]

set_option maxRecDepth 4000 in
lemma baseFallbackPerception_loads :
    pyJsonLoads baseFallbackPerceptionStr = some baseFallbackPerceptionJson := by
  rfl

/-! ## Idempotence of `str.strip()`, and claims C1 and C2 -/

lemma dropWhile_idem (p : Char → Bool) (l : List Char) :
    List.dropWhile p (List.dropWhile p l) = List.dropWhile p l := by
  induction l with
  | nil => rfl
  | cons a as ih =>
    by_cases h : p a
    · simp [List.dropWhile_cons, h, ih]
    · simp [List.dropWhile_cons, h]

/-- Right-trim on character lists; `pyStrip` is this after a left-trim. -/
def trimRight (l : List Char) : List Char :=
  (l.reverse.dropWhile isPyWS).reverse

lemma trimRight_idem (l : List Char) :
    trimRight (trimRight l) = trimRight l := by
  unfold trimRight
  rw [List.reverse_reverse, dropWhile_idem]

lemma length_dropWhile_le (p : Char → Bool) (l : List Char) :
    (List.dropWhile p l).length ≤ l.length := by
  induction l with
  | nil => simp
  | cons a as ih =>
    by_cases h : p a
    · simp [List.dropWhile_cons, h]
      omega
    · simp [List.dropWhile_cons, h]

lemma dropWhile_eq_self_of_append (p : Char → Bool) (x t : List Char)
    (hx : List.dropWhile p (x ++ t) = x ++ t) :
    List.dropWhile p x = x := by
  cases x with
  | nil => rfl
  | cons a as =>
    by_cases h : p a
    · exfalso
      rw [List.cons_append, List.dropWhile_cons, if_pos h] at hx
      have hlen := congrArg List.length hx
      rw [List.length_cons] at hlen
      have hle := length_dropWhile_le p (as ++ t)
      rw [hlen] at hle
      omega
    · simp [List.dropWhile_cons, h]

lemma trimRight_no_leading (x : List Char)
    (hx : List.dropWhile isPyWS x = x) :
    List.dropWhile isPyWS (trimRight x) = trimRight x := by
  have h1 : x.reverse.takeWhile isPyWS ++ x.reverse.dropWhile isPyWS =
      x.reverse := List.takeWhile_append_dropWhile _ _
  have hsplit : x = trimRight x ++ (x.reverse.takeWhile isPyWS).reverse := by
    conv_lhs => rw [← List.reverse_reverse x, ← h1]
    rw [List.reverse_append]
    rfl
  rw [hsplit] at hx
  exact dropWhile_eq_self_of_append isPyWS _ _ hx

lemma pyStrip_idem (s : String) : pyStrip (pyStrip s) = pyStrip s := by
  show (⟨trimRight (List.dropWhile isPyWS
      (trimRight (List.dropWhile isPyWS s.toList)))⟩ : String) =
    ⟨trimRight (List.dropWhile isPyWS s.toList)⟩
  rw [trimRight_no_leading _ (dropWhile_idem isPyWS s.toList), trimRight_idem]

/-- Projection to `payload["context"]["scope"]`, used to separate the two
perception fallback payloads. -/
def getContextScope (j : Json) : Option Json :=
  match j with
  | Json.obj fs =>
    match jLookup fs "context" with
    | some (Json.obj cs) => jLookup cs "scope"
    | _ => none
  | _ => none

/-- Projection to `payload["normalized_question"]`. -/
def getNormalizedQuestion (j : Json) : Option Json :=
  match j with
  | Json.obj fs => jLookup fs "normalized_question"
  | _ => none

/-- Claim C1, counterexample.  For raw model output `"null"`, strategy 1 of
`parse_json_with_fallbacks` parses it directly and returns Python `None` —
the claim's recovered payload is `null`, violating both "never returns
null/None" and "validates against the perception schema". -/
theorem claim_C1_counterexample :
    parse_json_with_fallbacks "null" "What are our AWS skill gaps?" =
      Json.null ∧
    validatePerception Json.null = none :=
  ⟨rfl, rfl⟩

/-- Claim C1, amended.  The recovery pipeline never raises and always
returns a value, but a payload produced by any successful parse strategy is
returned without schema validation (so it can be `null` or any
non-conforming document); only the no-parse fallback path is
schema-governed: recovering empty raw text returns
`create_fallback_perception(user_input)`, and that payload validates
against the perception schema exactly when the user input is non-empty
after stripping.  (`BaseAgent._validate_and_clean_json` likewise keeps
schema-invalid parses: its schema errors are caught and the raw JSON text
returned.) -/
theorem claim_C1_amended (u : String) (h : pyStrip u ≠ "") :
    parse_json_with_fallbacks "" u = create_fallback_perception u ∧
    validatePerception (create_fallback_perception u) =
      some (create_fallback_perception u) := by
  refine ⟨rfl, ?_⟩
  simp +decide [validatePerception, create_fallback_perception,
    validateEntities, validateContext, jLookup, asStrListO, strElems,
    validIntent, validUrgency, validScope, pyStrip_idem, h]

/-- Witness for the amended claim C1 at the concrete input `"hello"`. -/
theorem claim_C1_amended_witness :
    pyStrip "hello" ≠ "" ∧
    (parse_json_with_fallbacks "" "hello" = create_fallback_perception "hello" ∧
     validatePerception (create_fallback_perception "hello") =
       some (create_fallback_perception "hello")) :=
  ⟨by decide, claim_C1_amended "hello" (by decide)⟩

/-- Claim C2, amended.  Recovering empty raw text does return the call
site's fallback payload, but the perception fallback is not defined once:
`create_fallback_perception` depends on the user input
(`normalized_question` is the stripped input) and sets scope `"project"`,
while `BaseAgent._get_fallback_json` for perception is a constant with
`normalized_question = "General skills analysis"` and scope `"company"` —
so the two payloads differ for every user input. -/
theorem claim_C2_amended (u : String) :
    parse_json_with_fallbacks "" u = create_fallback_perception u ∧
    getContextScope (create_fallback_perception u) = some (Json.str "project") ∧
    getContextScope baseFallbackPerceptionJson = some (Json.str "company") ∧
    create_fallback_perception u ≠ baseFallbackPerceptionJson := by
  refine ⟨rfl, rfl, rfl, fun hEq => ?_⟩
  have hproj := congrArg getContextScope hEq
  rw [show getContextScope (create_fallback_perception u) =
        some (Json.str "project") from rfl,
     show getContextScope baseFallbackPerceptionJson =
        some (Json.str "company") from rfl] at hproj
  simp at hproj

/-- Claim C2, counterexample.  At a concrete user input the perception
fallback from `create_fallback_perception` is not byte-for-byte equal to
the perception fallback from `BaseAgent._get_fallback_json`
(scope `"project"` vs `"company"`), and the fallback is not independent of
the user input (`normalized_question` differs between two inputs). -/
theorem claim_C2_counterexample :
    create_fallback_perception "What are our AWS skill gaps?" ≠
      baseFallbackPerceptionJson ∧
    create_fallback_perception "What are our AWS skill gaps?" ≠
      create_fallback_perception "Need Python skills" := by
  constructor
  · intro hEq
    have hproj := congrArg getContextScope hEq
    rw [show getContextScope
          (create_fallback_perception "What are our AWS skill gaps?") =
          some (Json.str "project") from rfl,
       show getContextScope baseFallbackPerceptionJson =
          some (Json.str "company") from rfl] at hproj
    simp at hproj
  · intro hEq
    have hproj := congrArg getNormalizedQuestion hEq
    rw [show getNormalizedQuestion
          (create_fallback_perception "What are our AWS skill gaps?") =
          some (Json.str "What are our AWS skill gaps?") from rfl,
       show getNormalizedQuestion
          (create_fallback_perception "Need Python skills") =
          some (Json.str "Need Python skills") from rfl] at hproj
    simp at hproj

/-! ## `agents/perception.py` — `perceive_input`

The LLM client is out of scope (spec §1): it is passed in as
`Except String String` — `ok content` for a response whose `content`
attribute is `content`, `error msg` for a raised transport error.  A single
`now` string stands for the timestamps taken during the call. -/

/-- The project-analysis keyword test of `perceive_input` (lines 215-218). -/
def isProjectAnalysis (user_input : String) : Bool :=
  let lo := pyLower user_input
  strContains lo "project id:" || strContains lo "project name:" ||
  strContains lo "required skills:" || strContains lo "timeline:" ||
  strContains lo "budget:" ||
  strContains lo "analyze the skill gaps for this specific project"

/-- The extraction idiom `user_input.split(key)[1].split("\n")[0].strip()`
guarded by `key in user_input` (lines 231-236). -/
def extractAfterKey (user_input key : String) : Option String :=
  if strContains user_input key then
    match pySplit user_input key with
    | _ :: second :: _ => some (pyStrip ((pySplit second "\n").headD ""))
    | _ => none
  else none

/-- Required-skills extraction (lines 239-241): split on commas, strip, and
keep the non-empty entries. -/
def extractSkills (user_input : String) : List String :=
  match extractAfterKey user_input "Required Skills:" with
  | some skills_text => ((pySplit skills_text ",").map pyStrip).filter (· ≠ "")
  | none => []

/-- Python `a or b or default` over two optional strings (`None` and the
empty string are both falsy). -/
def orDefault (a b : Option String) (d : String) : String :=
  match a with
  | some s => if s ≠ "" then s else
      match b with
      | some t => if t ≠ "" then t else d
      | none => d
  | none =>
    match b with
    | some t => if t ≠ "" then t else d
    | none => d

/-- Joins strings with a separator, modelling `sep.join(xs)`. -/
def joinWithSep (sep : String) : List String → String
  | [] => ""
  | [x] => x
  | x :: rest => x ++ sep ++ joinWithSep sep rest

/-- An optional string as the JSON value stored by `update_session_data`. -/
def jsonOfOptStr : Option String → Json
  | some s => Json.str s
  | none => Json.null

/-- Python truthiness of an optional string. -/
def optStrTruthy : Option String → Bool
  | some s => s ≠ ""
  | none => false

/-- Dict `.get(key, default)` on a value that must be a dict; anything else
models the `AttributeError` the manual-validation block can raise.  The
error string stands for `str(e)` of the raised exception. -/
def pyGetD (j : Json) (key : String) (d : Json) : Except String Json :=
  match j with
  | Json.obj fs => Except.ok ((jLookup fs key).getD d)
  | _ => Except.error "AttributeError"

/-- Python slicing `x[:n]` (lists and strings slice; other values model the
`TypeError` they raise). -/
def pySliceTake (j : Json) (n : Nat) : Except String Json :=
  match j with
  | Json.arr xs => Except.ok (Json.arr (xs.take n))
  | Json.str s => Except.ok (Json.str ⟨s.toList.take n⟩)
  | _ => Except.error "TypeError"

/-- Python `.replace` on a value that must be a string (`AttributeError`
otherwise), for the manual `analysis_focus` default. -/
def pyReplaceJ (j : Json) (pat rep : String) : Except String Json :=
  match j with
  | Json.str s => Except.ok (Json.str (pyReplace s pat rep))
  | _ => Except.error "AttributeError"

/-- Total `.get(key, default)` for receivers that are dicts at every
reachable call site (every payload built by the perception code is an
object). -/
def jsonGetD (j : Json) (key : String) (d : Json) : Json :=
  match j with
  | Json.obj fs => (jLookup fs key).getD d
  | _ => d

/-- The manual safe-defaults validation block of `perceive_input`
(lines 288-305), run when Pydantic validation fails.  Each `.get` chain can
raise `AttributeError`/`TypeError` when the parsed document is not shaped
like a dict (e.g. `null`), which escapes to `perceive_input`'s outer
handler. -/
def manualPerception (perception : Json) (user_input : String) :
    Except String Json :=
  exBind (pyGetD perception "intent" (Json.str "skill_gap_analysis")) fun intent =>
  exBind (pyGetD perception "entities" (Json.obj [])) fun ent1 =>
  exBind (exBind (pyGetD ent1 "skills" (Json.arr [])) (pySliceTake · 10)) fun skills =>
  exBind (pyGetD perception "entities" (Json.obj [])) fun ent2 =>
  exBind (exBind (pyGetD ent2 "projects" (Json.arr [])) (pySliceTake · 5)) fun projects =>
  exBind (pyGetD perception "entities" (Json.obj [])) fun ent3 =>
  exBind (exBind (pyGetD ent3 "teams" (Json.arr [])) (pySliceTake · 5)) fun teams =>
  exBind (pyGetD perception "entities" (Json.obj [])) fun ent4 =>
  exBind (exBind (pyGetD ent4 "people" (Json.arr [])) (pySliceTake · 5)) fun people =>
  exBind (pyGetD perception "entities" (Json.obj [])) fun ent5 =>
  exBind (exBind (pyGetD ent5 "timelines" (Json.arr [])) (pySliceTake · 3)) fun timelines =>
  exBind (pyGetD perception "normalized_question" (Json.str user_input)) fun nq =>
  exBind (pyGetD perception "context" (Json.obj [])) fun ctx1 =>
  exBind (pyGetD ctx1 "constraints" (Json.arr [])) fun constraints =>
  exBind (pyGetD perception "context" (Json.obj [])) fun ctx2 =>
  exBind (pyGetD ctx2 "urgency" (Json.str "medium")) fun urgency =>
  exBind (pyGetD perception "context" (Json.obj [])) fun ctx3 =>
  exBind (pyGetD ctx3 "scope" (Json.str "project")) fun scope =>
  exBind (pyGetD perception "intent" (Json.str "skill_gap_analysis")) fun intentForFocus =>
  exBind (pyReplaceJ intentForFocus "_" " ") fun intentSpaced =>
  exBind (match intentSpaced with
    | Json.str sp => pyGetD perception "analysis_focus"
        (Json.str ("Analysis of " ++ sp))
    | _ => Except.error "AttributeError") fun analysis_focus =>
  Except.ok (Json.obj
    [("intent", intent),
     ("entities", Json.obj
       [("skills", skills), ("projects", projects), ("teams", teams),
        ("people", people), ("timelines", timelines)]),
     ("normalized_question", nq),
     ("context", Json.obj
       [("constraints", constraints), ("urgency", urgency),
        ("scope", scope)]),
     ("analysis_focus", analysis_focus)])

/-- The body of `perceive_input`'s `try` block (lines 263-305) up to the
computation of `result`: the LLM call (a transport error is one more
exception for the same handler), the empty-response check, the recovery
pipeline, Pydantic validation, and the manual fallback validation.  The
memory writes at the end of the `try` (lines 307-331) cannot raise and are
modelled after the block's outcome is known; no memory write precedes a
raising point inside the block, so the handler sees the pre-`try` memory. -/
def perceiveTryBody (user_input : String) (llm : Except String String) :
    Except String Json :=
  exBind llm fun contentRaw =>
  let content := pyStrip contentRaw
  if content = "" || pyIsSpace content then
    Except.ok (create_fallback_perception user_input)
  else
    let perception := parse_json_with_fallbacks content user_input
    match validatePerception perception with
    | some v => Except.ok v
    | none => manualPerception perception user_input

/-- The four canned reasoning-step strings of the success path
(lines 309-314). -/
def perceptionReasoningSteps : List String :=
  ["Interpreted user request using enhanced structured prompt",
   "Extracted intent and entities using LLM with JSON validation",
   "Applied robust JSON parsing with multiple fallback strategies",
   "Validated response and normalized user query"]

/-- `perceive_input` (perception.py, lines 191-359): empty-input short
circuit, project-context extraction (whose `session_data` writes the memory
discards, claim C10), then the `try` body with its success and error
memory logging. -/
def perceive_input (user_input : String) (llm : Except String String)
    (mem : SessionMemory) (now : String) : Json × SessionMemory :=
  if pyStrip user_input = "" then
    let er := create_fallback_perception "No input provided"
    let mem := addEntry mem "perception" er ReasoningPattern.react
      ["Error: No user input provided"] 0.1
      [("error", Json.str "No user input"), ("user_input", Json.str user_input)]
      now
    let mem := updateSessionData mem "intent" (Json.str "skill_gap_analysis") now
    let mem := updateSessionData mem "entities"
      (jsonGetD er "entities" (Json.obj [])) now
    let mem := updateSessionData mem "normalized_question"
      (Json.str "No input provided") now
    let mem := updateSessionData mem "research_facts" (Json.arr []) now
    (er, mem)
  else
    let projBranch :=
      if isProjectAnalysis user_input then
        let project_id := extractAfterKey user_input "Project ID:"
        let project_name := extractAfterKey user_input "Project Name:"
        let required_skills := extractSkills user_input
        let simplified := "Analyze skill gaps for project " ++
          orDefault project_name project_id "selected project"
        let simplified :=
          if required_skills ≠ [] then
            simplified ++ " requiring skills: " ++
              joinWithSep ", " (required_skills.take 5)
          else simplified
        let mem := updateSessionData mem "project_id"
          (jsonOfOptStr project_id) now
        let mem := updateSessionData mem "project_name"
          (jsonOfOptStr project_name) now
        let mem := updateSessionData mem "required_skills"
          (Json.arr (required_skills.map Json.str)) now
        (simplified, mem)
      else (user_input, mem)
    let ui2 := projBranch.1
    let mem1 := projBranch.2
    match perceiveTryBody ui2 llm with
    | Except.ok result =>
      let mem2 := addEntry mem1 "perception" result ReasoningPattern.react
        perceptionReasoningSteps 0.8
        [("user_input", Json.str ui2), ("json_parsing_successful", Json.bool true)]
        now
      let mem2 := updateSessionData mem2 "intent"
        (jsonGetD result "intent" (Json.str "skill_gap_analysis")) now
      let mem2 := updateSessionData mem2 "entities"
        (jsonGetD result "entities" (Json.obj [])) now
      let mem2 := updateSessionData mem2 "normalized_question"
        (jsonGetD result "normalized_question" (Json.str ui2)) now
      let mem2 := updateSessionData mem2 "research_facts" (Json.arr []) now
      (result, mem2)
    | Except.error e =>
      let result := create_fallback_perception ui2
      let mem2 := addEntry mem1 "perception" result ReasoningPattern.react
        ["Error occurred during perception processing", "Error: " ++ e] 0.1
        [("error", Json.str e), ("user_input", Json.str ui2)] now
      let mem2 := updateSessionData mem2 "intent"
        (jsonGetD result "intent" (Json.str "skill_gap_analysis")) now
      let mem2 := updateSessionData mem2 "entities"
        (jsonGetD result "entities" (Json.obj [])) now
      let mem2 := updateSessionData mem2 "normalized_question"
        (jsonGetD result "normalized_question" (Json.str ui2)) now
      let mem2 := updateSessionData mem2 "research_facts" (Json.arr []) now
      (result, mem2)

/-! ## `core/langgraph_workflow.py` — the perception node -/

/-- The `WorkflowState` TypedDict (langgraph_workflow.py, lines 27-39); the
session memory is threaded separately.  TypedDict fields are unchecked at
runtime, so fields whose writes come from `.get` on a payload are `Json`. -/
structure WFState where
  question : String
  intent : Json
  entities : List Json
  normalized_question : Json
  research_facts : List Json
  analysis : String
  decision : String
  step : String
  project_id : String
  scope : String

/-- The entities flattening of `perception_node` (lines 97-107): dict
values are flattened (lists extended, scalars appended), a list is kept,
anything else becomes `[]`. -/
def flattenEntities (j : Json) : List Json :=
  match j with
  | Json.obj fs =>
    (fs.map (fun p =>
      match p.2 with
      | Json.arr xs => xs
      | v => [v])).flatten
  | Json.arr xs => xs
  | _ => []

/-- `perception_node` (langgraph_workflow.py, lines 78-128).  Its `except`
branch (`step := "perception_error"`) is unreachable because
`perceive_input` handles every exception internally and the memory object
is always provided by the driver, so the node is its `try` body. -/
def perceptionNode (st : WFState) (mem : SessionMemory)
    (llm : Except String String) (now : String) : WFState × SessionMemory :=
  let pr := perceive_input st.question llm mem now
  let result := pr.1
  let mem2 := pr.2
  let entities := jsonGetD result "entities" (Json.obj [])
  ({ st with
      intent := jsonGetD result "intent" (Json.str "skill_analysis"),
      entities := flattenEntities entities,
      normalized_question :=
        jsonGetD result "normalized_question" (Json.str st.question),
      step := "perception_complete" }, mem2)

/-! ## `agents/analysis.py` — `analyze_facts`

The router (domain data source) and the LLM are external collaborators
(spec §1): the four `router.get_*_sync()` fetches are a single
`Except String String` whose `ok` value is the formatted context string
they produce (its content only flows into the prompt and entry metadata),
and a raised fetch error is one more exception for the function's handler.
The LLM result carries `(content, reasoning_steps)`. -/

/-- The five canned REACT reasoning steps of `analyze_facts`
(analysis.py, lines 180-186). -/
def analysisCannedSteps : List String :=
  ["Reason: Understanding the question and the data provided",
   "Evaluate: Assessing skill gaps and team capabilities",
   "Act: Generating recommendations based on analysis. Make sure to return a valid and compact JSON object and say the person names you used in the recommendations using the following strict structure: \x7b\x7b\x27upskilling\x27: [\x27<short actionable recommendation>\x27, \x27...\x27], \x27internal_transfers\x27: [\x27<short actionable recommendation>\x27, \x27...\x27], \x27hiring\x27: [\x27<short actionable recommendation>\x27, \x27...\x27], \x27rationale\x27: \x27<short paragraph justifying the above choices, focusing on trade-offs and logic>\x7d\x7d",
   "Check: Validating recommendations against constraints",
   "Think: Refining the final analysis"]

/-- The project-specific question rewrite (analysis.py, lines 151-155). -/
def analysisQuestionRewrite (project_id : Option String) : String :=
  if optStrTruthy project_id then
    "Analyze ONLY the skill gaps for the specific project (ID: " ++
      (project_id.getD "") ++
      ") and provide recommendations for the best way to fill the skill gaps. Focus on this project only, not all projects."
  else
    "Consider all the employees and their skills and the project requirements and the team composition and the skill market data and provide a recommendation for the best way to fill the skill gaps."

/-- `analyze_facts` (analysis.py, lines 93-225): invalid-question short
circuit (0.1 entry), data fetch, question rewrite, LLM call; on success one
0.8-default entry plus the `"analysis"` scratchpad write, on any exception
one 0.1 entry and an error-message return value. -/
def analyze_facts (normalized_question : String)
    (router : Except String String)
    (llm : Except String (String × List String))
    (mem : SessionMemory) (project_id : Option String) (scope : String)
    (now : String) : String × SessionMemory :=
  if pyStrip normalized_question = "" then
    let msg := "Error: No question provided for analysis"
    (msg, addEntry mem "analysis" (Json.str msg) ReasoningPattern.react
      ["Error: No question provided for analysis"] 0.1
      [("error", Json.str "No question provided"),
       ("question", Json.str normalized_question)] now)
  else
    match router with
    | Except.error e =>
      let msg := "Error during analysis: " ++ e
      (msg, addEntry mem "analysis" (Json.str msg) ReasoningPattern.react
        ["Error occurred during analysis phase"] 0.1
        [("error", Json.str e), ("question", Json.str normalized_question),
         ("project_id", jsonOfOptStr project_id), ("scope", Json.str scope)]
        now)
    | Except.ok ctx =>
      let question2 := analysisQuestionRewrite project_id
      match llm with
      | Except.error e =>
        let msg := "Error during analysis: " ++ e
        (msg, addEntry mem "analysis" (Json.str msg) ReasoningPattern.react
          ["Error occurred during analysis phase"] 0.1
          [("error", Json.str e), ("question", Json.str question2),
           ("project_id", jsonOfOptStr project_id), ("scope", Json.str scope)]
          now)
      | Except.ok llmResp =>
        let analysis := pyStrip llmResp.1
        let steps :=
          if llmResp.2 = [] then analysisCannedSteps else llmResp.2
        let mem2 := addEntry mem "analysis" (Json.str analysis)
          ReasoningPattern.react steps 0.8
          [("question", Json.str question2), ("context", Json.str ctx),
           ("project_id", jsonOfOptStr project_id),
           ("scope", Json.str scope)] now
        let mem2 := updateSessionData mem2 "analysis" (Json.str analysis) now
        (analysis, mem2)

/-! ## `agents/base_agent.py` and `agents/decision.py` — the decision stage

`BaseAgent._validate_and_clean_json` never raises (every path of its body
is wrapped) and only transforms the content string, so `invoke_llm` and
`DecisionAgent.process` are parameterised by the total cleaning function
`clean`; theorems quantify over it and therefore hold for the actual one.
Likewise `validate_decision_output` is passed in as a total
`Json → Option Json` (`none` models a raised `ValidationError`). -/

/-- `BaseAgent.invoke_llm` (base_agent.py, lines 39-71): on success the
(cleaned, for the three JSON agents) content is logged at the hard-coded
confidence 0.8 via `_log_to_memory`; on a raised transport error
`_log_error_to_memory` appends a 0.1 entry and the exception is re-raised. -/
def invoke_llm (name : String) (rp : ReasoningPattern)
    (llm : Except String (String × List String))
    (clean : String → String) (mem : SessionMemory) (now : String) :
    Except String String × SessionMemory :=
  match llm with
  | Except.ok resp =>
    let content :=
      if pyLower name = "perception" || pyLower name = "analysis" ||
         pyLower name = "decision" then clean resp.1
      else resp.1
    (Except.ok content,
     addEntry mem name (Json.str content) rp resp.2 0.8
       [("agent_name", Json.str name),
        ("reasoning_pattern", Json.str rp.value)] now)
  | Except.error e =>
    let errMsg := "Error in " ++ name ++ " LLM invocation: " ++ e
    (Except.error e,
     addEntry mem name (Json.str errMsg) rp ["Error occurred: " ++ errMsg] 0.1
       [("agent_name", Json.str name),
        ("reasoning_pattern", Json.str rp.value),
        ("error", Json.bool true)] now)

/-- The decision branch of `BaseAgent._get_fallback_json`
(base_agent.py, line 228). -/
def decisionFallbackStr : String :=
  "\x7b\"natural_language_summary\": \"Decision pending\", \"selected_strategy\": \x7b\"strategy_name\": \"TBD\", \"strategy_type\": \"mixed\", \"confidence\": \"low\", \"rationale\": \"Analysis pending\"\x7d, \"strategy_details\": \x7b\"primary_action\": \"TBD\", \"target_skill\": \"TBD\", \"timeline_weeks\": 4, \"success_probability\": \"low\", \"cost_estimate\": \"low\", \"risk_level\": \"high\"\x7d, \"implementation_plan\": \x7b\"primary_owner\": \"TBD\", \"support_team\": [], \"timeline_weeks\": 4, \"key_milestones\": [], \"success_metrics\": [], \"budget_estimate\": \"TBD\", \"resource_requirements\": []\x7d, \"risk_mitigation\": \x7b\"primary_risks\": [], \"mitigation_strategies\": [], \"contingency_plan\": \"TBD\", \"monitoring_points\": []\x7d, \"review_schedule\": \x7b\"next_review_date\": \"TBD\", \"review_frequency\": \"TBD\", \"success_criteria\": []\x7d, \"alternative_strategies\": []\x7d"

/-- Model of Python `str.endswith`. -/
def pyEndsWith (s suf : String) : Bool :=
  listStarts suf.toList.reverse s.toList.reverse

/-- `DecisionAgent._extract_json_from_response` (decision.py, lines
168-199): keep a brace-delimited response, otherwise slice the first
balanced brace span, otherwise return the decision fallback constant. -/
def extract_json_from_response (response : String) : String :=
  if response = "" then decisionFallbackStr
  else
    let r := pyStrip response
    if pyStartsWith r "\x7b" && pyEndsWith r "\x7d" then r
    else
      match findChar r.toList lbrace with
      | some start =>
        match braceEnd (r.toList.drop start) 0 0 with
        | some len => ⟨(r.toList.drop start).take len⟩
        | none => decisionFallbackStr
      | none => decisionFallbackStr

/-- Minimal JSON string escaping for the serializer below. -/
def escapeJsonChars (l : List Char) : List Char :=
  (l.map (fun c =>
    if c == '"' then ['\\', '"']
    else if c == '\\' then ['\\', '\\']
    else if c == '\n' then ['\\', 'n']
    else [c])).flatten

mutual

/-- Model of `json.dumps` (no property below depends on the rendered text:
Python's `indent=2` layout and float rendering are not reproduced). -/
def pyJsonDumps : Json → String
  | Json.null => "null"
  | Json.bool b => if b then "true" else "false"
  | Json.num q =>
    if q.den = 1 then toString q.num else toString q
  | Json.str s => "\"" ++ ⟨escapeJsonChars s.toList⟩ ++ "\""
  | Json.arr xs => "[" ++ dumpArr xs ++ "]"
  | Json.obj fs => lbrace.toString ++ dumpFields fs ++ rbrace.toString

/-- Serializes array elements. -/
def dumpArr : List Json → String
  | [] => ""
  | [x] => pyJsonDumps x
  | x :: rest => pyJsonDumps x ++ ", " ++ dumpArr rest

/-- Serializes object members. -/
def dumpFields : List (String × Json) → String
  | [] => ""
  | [(k, v)] => "\"" ++ k ++ "\": " ++ pyJsonDumps v
  | (k, v) :: rest => "\"" ++ k ++ "\": " ++ pyJsonDumps v ++ ", " ++ dumpFields rest

end

/-- `DecisionAgent._create_fallback_decision` (decision.py, lines 201-271):
a canned decision document whose `target_skill` and `primary_owner` react
to keywords in the narrative; `question` and `analysis` are accepted and
unused, as in the source. -/
def create_fallback_decision (narrative _question _analysis : String) : String :=
  let lo := pyLower narrative
  let target_skill :=
    if strContains lo "kubernetes" then "Kubernetes"
    else if strContains lo "aws" then "AWS"
    else if strContains lo "terraform" then "Terraform"
    else "Required skills"
  let primary_owner :=
    if strContains lo "michael chen" then "Michael Chen"
    else if strContains lo "david kim" then "David Kim"
    else "Team Lead"
  pyJsonDumps (Json.obj
    [("natural_language_summary", Json.str
        "Based on the analysis, we recommend upskilling strategy to address the skill gaps identified."),
     ("selected_strategy", Json.obj
       [("strategy_name", Json.str "Upskilling Strategy"),
        ("strategy_type", Json.str "upskill"),
        ("confidence", Json.str "medium"),
        ("rationale", Json.str "Cost-effective approach to build internal capability")]),
     ("strategy_details", Json.obj
       [("primary_action", Json.str "Upskill team members"),
        ("target_skill", Json.str target_skill),
        ("timeline_weeks", Json.num 8),
        ("success_probability", Json.str "medium"),
        ("cost_estimate", Json.str "low"),
        ("risk_level", Json.str "medium")]),
     ("implementation_plan", Json.obj
       [("primary_owner", Json.str primary_owner),
        ("support_team", Json.arr []),
        ("timeline_weeks", Json.num 8),
        ("key_milestones", Json.arr
          [Json.str "Week 2: Training start", Json.str "Week 6: Practice",
           Json.str "Week 8: Implementation"]),
        ("success_metrics", Json.arr
          [Json.str "Skill demonstration", Json.str "Project completion"]),
        ("budget_estimate", Json.str "$2,000-$5,000"),
        ("resource_requirements", Json.arr
          [Json.str "Training materials", Json.str "Mentor time"])]),
     ("risk_mitigation", Json.obj
       [("primary_risks", Json.arr
          [Json.str "Learning curve", Json.str "Timeline pressure"]),
        ("mitigation_strategies", Json.arr
          [Json.str "Dedicated time", Json.str "Mentorship"]),
        ("contingency_plan", Json.str "External consultant if needed"),
        ("monitoring_points", Json.arr
          [Json.str "Weekly reviews", Json.str "Progress assessments"])]),
     ("review_schedule", Json.obj
       [("next_review_date", Json.str "2024-03-01"),
        ("review_frequency", Json.str "Weekly"),
        ("success_criteria", Json.arr
          [Json.str "Skill demonstration", Json.str "Project success"])]),
     ("alternative_strategies", Json.arr
       [Json.obj
         [("strategy_name", Json.str "Hiring Strategy"),
          ("approach", Json.str "Recruit experienced professionals"),
          ("selection_reason", Json.str "Higher cost and longer timeline"),
          ("confidence_score", Json.num (3/5))]])])

/-- `DecisionAgent.process` (decision.py, lines 108-166): `invoke_llm`,
JSON extraction, validation (serialize on success, canned fallback
otherwise), the two scratchpad writes, and — when `invoke_llm` re-raises a
transport error — the handler's second 0.1 entry.  The post-`invoke_llm`
string processing cannot raise, so the handler fires exactly for the
re-raised exception. -/
def decisionProcess (question analysis : String)
    (llm : Except String (String × List String))
    (clean : String → String) (validateD : Json → Option Json)
    (mem : SessionMemory) (now : String) : String × SessionMemory :=
  match invoke_llm "Decision" ReasoningPattern.tot llm clean mem now with
  | (Except.error e, mem1) =>
    let errorMsg := "Error during decision making: " ++ e
    (errorMsg, addEntry mem1 "decision" (Json.str errorMsg)
      ReasoningPattern.tot ["Error occurred during decision phase"] 0.1
      [("error", Json.str e), ("question", Json.str question),
       ("analysis", Json.str analysis)] now)
  | (Except.ok decision0, mem1) =>
    let decision1 := extract_json_from_response decision0
    let decision2 :=
      match pyJsonLoads decision1 with
      | none => create_fallback_decision decision1 question analysis
      | some dj =>
        match validateD dj with
        | some vd => pyJsonDumps vd
        | none => create_fallback_decision decision1 question analysis
    let mem2 := updateSessionData mem1 "decision" (Json.str decision2) now
    let mem2 := updateSessionData mem2 "current_step" (Json.str "completed") now
    (decision2, mem2)

/-! ## `core/langgraph_workflow.py` — routing, and claim C3

The state machine is modelled over the routing-relevant fields.  The claim
quantifies over Agent-Runner outcomes per stage; each of the three outcome
kinds writes a non-empty string into its state field (a validated record
serializes brace-delimited, a transport failure yields the node's or
agent's non-empty error document, a fallback record is a non-empty JSON
constant), which the theorem takes as the hypotheses `aW ≠ ""`, `dW ≠ ""`.
The orchestrator may also fail (its `except` writes
`step = "orchestrator_error"`); the theorem quantifies over that with
`oErr`. -/

/-- Routing-relevant projection of the workflow state. -/
structure RouteState where
  analysis : String
  decision : String
  step : String

/-- `OrchestratorAgent.process` (orchestrator.py, lines 55-62): the
deterministic next-step rule on Python truthiness of the two fields (the
LLM argument is ignored by the body). -/
def orchestratorProcess (st : RouteState) : String :=
  if st.analysis = "" then "analysis"
  else if st.decision = "" then "decision"
  else "done"

/-- `orchestrator_node` (langgraph_workflow.py, lines 260-293): writes
`orchestrator_decided_<next>` on success and `orchestrator_error` when its
body raises. -/
def orchestratorNode (err : Bool) (st : RouteState) : RouteState :=
  if err then { st with step := "orchestrator_error" }
  else { st with step := "orchestrator_decided_" ++ orchestratorProcess st }

/-- `route_to_next_step` (langgraph_workflow.py, lines 295-310): extract
the orchestrator's decision from the step marker, with the deterministic
field-driven fallback. -/
def route_to_next_step (st : RouteState) : String :=
  if strContains st.step "orchestrator_decided_" then
    pyReplace st.step "orchestrator_decided_" ""
  else if st.analysis = "" then "analysis"
  else if st.decision = "" then "decision"
  else "done"

/-- Graph nodes of the compiled workflow; `terminal` is LangGraph's `END`,
`invalid` a conditional-edge key outside the mapping
`{"analysis", "decision", "done"}` (a runtime error). -/
inductive Node where
  | perception : Node
  | analysis : Node
  | decision : Node
  | orchestrator : Node
  | terminal : Node
  | invalid : Node
deriving DecidableEq

/-- The conditional-edge mapping of `create_workflow` (lines 60-68). -/
def routeTarget (s : String) : Node :=
  if s = "analysis" then Node.analysis
  else if s = "decision" then Node.decision
  else if s = "done" then Node.terminal
  else Node.invalid

/-- Executes the compiled graph: entry at `perception`, every stage node
followed by `orchestrator` (edges of lines 71-73), the orchestrator
followed by the conditional edge.  Stage nodes write their outcome string
and `<stage>_complete` step marker (the `analysis_node`/`decision_node`
bodies never raise for the modelled outcomes, their internal handlers
producing the error strings instead).  Returns the node reached when fuel
runs out, the final state, and the stage-execution trace. -/
def runWF : Nat → Node → RouteState → String → String → (Nat → Bool) → Nat →
    Node × RouteState × List Node
  | 0, n, st, _, _, _, _ => (n, st, [])
  | fuel + 1, n, st, aW, dW, oErr, k =>
    match n with
    | Node.terminal => (Node.terminal, st, [])
    | Node.invalid => (Node.invalid, st, [])
    | Node.perception =>
      let st2 := { st with step := "perception_complete" }
      let r := runWF fuel Node.orchestrator st2 aW dW oErr k
      (r.1, r.2.1, Node.perception :: r.2.2)
    | Node.analysis =>
      let st2 := { st with analysis := aW, step := "analysis_complete" }
      let r := runWF fuel Node.orchestrator st2 aW dW oErr k
      (r.1, r.2.1, Node.analysis :: r.2.2)
    | Node.decision =>
      let st2 := { st with decision := dW, step := "decision_complete" }
      let r := runWF fuel Node.orchestrator st2 aW dW oErr k
      (r.1, r.2.1, Node.decision :: r.2.2)
    | Node.orchestrator =>
      let st2 := orchestratorNode (oErr k) st
      runWF fuel (routeTarget (route_to_next_step st2)) st2 aW dW oErr (k + 1)

/-- One driver run from the initial empty state (`core/workflow.py`,
lines 46-58, initializes `analysis`, `decision` and `step` to `""`); fuel 8
covers the seven node activations of a complete run. -/
def runWorkflow (aW dW : String) (oErr : Nat → Bool) :
    Node × RouteState × List Node :=
  runWF 8 Node.perception ⟨"", "", ""⟩ aW dW oErr 0

/-- Claim C3.  For every sequence of Agent-Runner outcomes (each writing a
non-empty string) and every pattern of orchestrator failures, the state
machine reaches the terminal node with the stage trace
perception-analysis-decision: three stage transitions, no stage revisited,
no loop. -/
theorem claim_C3_termination (aW dW : String) (oErr : Nat → Bool)
    (ha : aW ≠ "") (hd : dW ≠ "") :
    (runWorkflow aW dW oErr).1 = Node.terminal ∧
    (runWorkflow aW dW oErr).2.2 =
      [Node.perception, Node.analysis, Node.decision] := by
  cases hb0 : oErr 0 <;> cases hb1 : oErr 1 <;> cases hb2 : oErr 2 <;>
    simp +decide [runWorkflow, runWF, orchestratorNode, orchestratorProcess,
      route_to_next_step, routeTarget, hb0, hb1, hb2, ha, hd]

/-- Witness for claim C3 at concrete outcomes (analysis and decision both
produced by fallback documents, orchestrator never failing). -/
theorem claim_C3_termination_witness :
    (runWorkflow "[]" "Decision pending" (fun _ => false)).1 = Node.terminal ∧
    (runWorkflow "[]" "Decision pending" (fun _ => false)).2.2 =
      [Node.perception, Node.analysis, Node.decision] :=
  claim_C3_termination "[]" "Decision pending" (fun _ => false)
    (by decide) (by decide)

/-! ## `core/workflow.py` — claim C9

Python evaluates a call's arity before the body runs: a call with fewer
than the required or more than the declared positional parameters raises
`TypeError`.  `MultiAgentWorkflow.__init__(self, perception_llm,
reasoner_llm, display_limit=None)` declares 3 parameters (2 required); its
body calls `set_llms(perception_llm, reasoner_llm)` — but `set_llms`
(langgraph_workflow.py, line 18) requires 5 positional parameters — and
then `create_workflow(perception_llm, reasoner_llm, display_limit)` — but
`create_workflow` (line 41) requires 5 of its 6.  So construction raises
`TypeError` for every argument count, and `run` is never reached. -/

/-- Arity check of a Python call: `params` declared positional parameters
of which `required` have no default, called with `given` arguments. -/
def pyCallCheck (params required given : Nat) : Except PyErr Unit :=
  if required ≤ given && given ≤ params then Except.ok ()
  else Except.error PyErr.typeError

/-- Constructing `MultiAgentWorkflow` with `nArgs` LLM/display arguments:
the `__init__` arity gate, then the body's two calls in source order. -/
def multiAgentWorkflowInit (nArgs : Nat) : Except PyErr Unit :=
  exBind (pyCallCheck 3 2 nArgs) fun _ =>
  exBind (pyCallCheck 5 5 2) fun _ =>
  exBind (pyCallCheck 6 5 3) fun _ =>
  Except.ok ()

/-- Claim C9 (code bug witness).  Every construction of
`MultiAgentWorkflow` raises `TypeError`: with 2 or 3 arguments (the
declared signature, and the `recommendation_app.py` call site) the body's
`set_llms(perception_llm, reasoner_llm)` call is 3 arguments short; with
any other count (main.py passes 6, the test scripts 5) `__init__` itself
rejects the call.  The run-totality the claim states is therefore
unreachable behind a constructor `TypeError`. -/
theorem claim_C9_init_always_raises (nArgs : Nat) :
    multiAgentWorkflowInit nArgs = Except.error PyErr.typeError := by
  unfold multiAgentWorkflowInit pyCallCheck
  split
  · rfl
  · rfl

/-! ## Claims C6, C7, C8 -/

/-- Claim C7, amended.  The perception node marks
`step = "perception_complete"` whenever its stage body returns — which is
always, since `perceive_input` recovers from every exception internally —
including when the record it produced is the canonical fallback;
`"perception_error"` would require an exception to escape the stage body.
In particular, under a transport failure the node still reports
`perception_complete` while writing the fallback record's fields. -/
theorem claim_C7_amended (st : WFState) (mem : SessionMemory)
    (llm : Except String String) (e now : String) :
    (perceptionNode st mem llm now).1.step = "perception_complete" ∧
    (perceptionNode st mem (Except.error e) now).1.intent =
      Json.str "skill_gap_analysis" := by
  constructor
  · rfl
  · unfold perceptionNode perceive_input
    by_cases h1 : pyStrip st.question = ""
    · simp [h1, jsonGetD, create_fallback_perception, jLookup]
    · simp [h1, perceiveTryBody, jsonGetD, create_fallback_perception, jLookup]

/-- Concrete workflow state for the C7 counterexample. -/
def c7State : WFState :=
  { question := "What cloud skills are missing?"
    intent := Json.null
    entities := []
    normalized_question := Json.null
    research_facts := []
    analysis := ""
    decision := ""
    step := ""
    project_id := ""
    scope := "company" }

/-- Claim C7, counterexample.  A transport failure makes `perceive_input`
log and return the fallback record (the only entry's content is
`create_fallback_perception(question)`), yet the node sets
`step = "perception_complete"`, not `"perception_error"` — a fallback
record produced without any escaping exception is reported as complete. -/
theorem claim_C7_counterexample :
    (perceptionNode c7State (mkSessionMemory "sess_c7" "t0")
      (Except.error "connection refused") "t1").1.step =
      "perception_complete" ∧
    ((perceptionNode c7State (mkSessionMemory "sess_c7" "t0")
      (Except.error "connection refused") "t1").2.entries.map
        (fun en => en.content)) =
      [create_fallback_perception "What cloud skills are missing?"] ∧
    ((perceptionNode c7State (mkSessionMemory "sess_c7" "t0")
      (Except.error "connection refused") "t1").2.entries.map
        (fun en => en.confidence)) = [(0.1 : ℚ)] :=
  ⟨rfl, rfl, rfl⟩

/-- Claim C6, amended.  The code never attaches 1.0 or 0.6: every stage
entry carries either the `add_entry` default 0.8 (all non-exception paths,
regardless of whether the record was validated, cleaned by defaults, or the
canonical fallback) or the explicit 0.1 of an error path.  In particular a
perception fallback record produced from an empty model response is logged
at 0.8, and the analysis and decision entries are 0.8 exactly when the
external calls succeed (0.1 on invalid input or transport failure, the
decision error path logging 0.1 twice). -/
theorem claim_C6_amended_confidences :
    (∀ (ui : String) (llm : Except String String) (mem : SessionMemory)
       (now : String),
      ((perceive_input ui llm mem now).2.entries.map
          (fun en => en.confidence)) =
          mem.entries.map (fun en => en.confidence) ++ [(0.8 : ℚ)] ∨
      ((perceive_input ui llm mem now).2.entries.map
          (fun en => en.confidence)) =
          mem.entries.map (fun en => en.confidence) ++ [(0.1 : ℚ)]) ∧
    (∀ (ui : String) (mem : SessionMemory) (now : String),
      pyStrip ui ≠ "" → isProjectAnalysis ui = false →
      (perceive_input ui (Except.ok "") mem now).1 =
        create_fallback_perception ui ∧
      ((perceive_input ui (Except.ok "") mem now).2.entries.map
          (fun en => en.confidence)) =
        mem.entries.map (fun en => en.confidence) ++ [(0.8 : ℚ)]) ∧
    (∀ (nq : String) (router : Except String String)
       (llm : Except String (String × List String)) (mem : SessionMemory)
       (pid : Option String) (sc now : String),
      ((analyze_facts nq router llm mem pid sc now).2.entries.map
          (fun en => en.confidence)) =
        mem.entries.map (fun en => en.confidence) ++
          [if pyStrip nq = "" then (0.1 : ℚ) else
            match router with
            | Except.error _ => (0.1 : ℚ)
            | Except.ok _ =>
              match llm with
              | Except.error _ => (0.1 : ℚ)
              | Except.ok _ => (0.8 : ℚ)]) ∧
    (∀ (q a : String) (llm : Except String (String × List String))
       (clean : String → String) (vd : Json → Option Json)
       (mem : SessionMemory) (now : String),
      ((decisionProcess q a llm clean vd mem now).2.entries.map
          (fun en => en.confidence)) =
        mem.entries.map (fun en => en.confidence) ++
          (match llm with
           | Except.error _ => [(0.1 : ℚ), (0.1 : ℚ)]
           | Except.ok _ => [(0.8 : ℚ)])) := by
  refine ⟨?_, ?_, ?_, ?_⟩
  · intro ui llm mem now
    unfold perceive_input
    by_cases h1 : pyStrip ui = ""
    · right
      simp [h1, updateSessionData_entries, addEntry]
    · rw [if_neg h1]
      by_cases h2 : isProjectAnalysis ui = true
      all_goals simp only [h2, if_pos, if_neg, Bool.not_eq_true, if_true,
        if_false]
      all_goals cases htb : perceiveTryBody _ llm
      all_goals simp [htb, updateSessionData_entries, addEntry]
  · intro ui mem now h1 h2
    unfold perceive_input
    rw [if_neg h1]
    have htb : perceiveTryBody ui (Except.ok "") =
        Except.ok (create_fallback_perception ui) := rfl
    simp [h2, htb, updateSessionData_entries, addEntry]
  · intro nq router llm mem pid sc now
    unfold analyze_facts
    by_cases h1 : pyStrip nq = ""
    · simp [h1, addEntry]
    · cases router <;> cases llm <;>
        simp [h1, updateSessionData_entries, addEntry]
  · intro q a llm clean vd mem now
    unfold decisionProcess invoke_llm
    cases llm <;> simp [updateSessionData_entries, addEntry]

/-- Witness for the amended claim C6: an empty model response at a
concrete non-project input yields the fallback record logged at 0.8. -/
theorem claim_C6_amended_witness :
    (perceive_input "Which skills are missing?" (Except.ok "")
      (mkSessionMemory "sess_w6" "t0") "t1").1 =
      create_fallback_perception "Which skills are missing?" ∧
    ((perceive_input "Which skills are missing?" (Except.ok "")
      (mkSessionMemory "sess_w6" "t0") "t1").2.entries.map
        (fun en => en.confidence)) =
      (mkSessionMemory "sess_w6" "t0").entries.map (fun en => en.confidence)
        ++ [(0.8 : ℚ)] :=
  claim_C6_amended_confidences.2.1 "Which skills are missing?"
    (mkSessionMemory "sess_w6" "t0") "t1" (by decide) (by decide)

/-- Claim C6, counterexample.  For the model response `""` the perception
stage stores the canonical fallback record — status Fallback in the
claim's terms, which the claim says must carry confidence exactly 0.1 —
but the entry is logged with the `add_entry` default 0.8. -/
theorem claim_C6_counterexample :
    (perceive_input "Need AWS skills" (Except.ok "")
      (mkSessionMemory "sess_c6" "t0") "t1").1 =
      create_fallback_perception "Need AWS skills" ∧
    ((perceive_input "Need AWS skills" (Except.ok "")
      (mkSessionMemory "sess_c6" "t0") "t1").2.entries.map
        (fun en => en.confidence)) = [(0.8 : ℚ)] :=
  ⟨rfl, rfl⟩

/-- Claim C8, amended.  The entry log is append-only — over any sequence of
`SessionMemory` method calls the old entries stay an unchanged prefix and
the growth equals the number of `add_entry` calls — and the perception and
analysis stages append exactly one entry per execution; the decision stage
appends one entry on LLM success but two under an LLM exception
(`invoke_llm`'s error logger plus `process`'s handler), so "exactly 1 per
stage executed" fails there. -/
theorem claim_C8_amended_append_only :
    (∀ (m : SessionMemory) (ops : List SessionOp),
      ∃ t, (applyOps m ops).entries = m.entries ++ t ∧
        t.length = countAdds ops) ∧
    (∀ (ui : String) (llm : Except String String) (mem : SessionMemory)
       (now : String),
      (perceive_input ui llm mem now).2.entries.length =
        mem.entries.length + 1) ∧
    (∀ (nq : String) (router : Except String String)
       (llm : Except String (String × List String)) (mem : SessionMemory)
       (pid : Option String) (sc now : String),
      (analyze_facts nq router llm mem pid sc now).2.entries.length =
        mem.entries.length + 1) ∧
    (∀ (q a : String) (llm : Except String (String × List String))
       (clean : String → String) (vd : Json → Option Json)
       (mem : SessionMemory) (now : String),
      (decisionProcess q a llm clean vd mem now).2.entries.length =
        mem.entries.length +
          (match llm with
           | Except.error _ => 2
           | Except.ok _ => 1)) := by
  refine ⟨fun m ops => applyOps_entries ops m, ?_, ?_, ?_⟩
  · intro ui llm mem now
    unfold perceive_input
    by_cases h1 : pyStrip ui = ""
    · simp [h1, updateSessionData_entries, addEntry]
    · rw [if_neg h1]
      by_cases h2 : isProjectAnalysis ui = true
      all_goals simp only [h2, if_pos, if_neg, Bool.not_eq_true, if_true,
        if_false]
      all_goals cases htb : perceiveTryBody _ llm
      all_goals simp [htb, updateSessionData_entries, addEntry]
  · intro nq router llm mem pid sc now
    unfold analyze_facts
    by_cases h1 : pyStrip nq = ""
    · simp [h1, addEntry]
    · cases router <;> cases llm <;>
        simp [h1, updateSessionData_entries, addEntry]
  · intro q a llm clean vd mem now
    unfold decisionProcess invoke_llm
    cases llm <;> simp [updateSessionData_entries, addEntry]

/-- Claim C8, counterexample.  One execution of the decision stage under a
transport error appends two entries, not exactly one: starting from an
empty session the log ends with length 2. -/
theorem claim_C8_counterexample :
    (decisionProcess "Which strategy should we pick?" "analysis text"
      (Except.error "timeout") (fun s => s) (fun _ => none)
      (mkSessionMemory "sess_c8" "t0") "t1").2.entries.length = 2 :=
  rfl
